import Mathlib

/-!
Verification development for the tagged-resource finder and deleter
(find_tagged_resources.py).

The development shallowly embeds the three core functions of the source:
- parse_arn: the regex-based ARN decomposer,
- verify_resource_exists: the per-type existence verifier,
- delete_resource: the per-type deletion dispatcher,
- find_iam_roles_by_tag and find_resources_by_tag: the resource directory.

All provider (AWS) interaction is modelled by oracle records: a world maps
each read or mutation call, with its exact string arguments, to an outcome
(success payload, a ClientError carrying an error code and message, or an
unexpected exception carrying a message). Deletion additionally records a
trace of the mutation calls made and of the interactive bucket prompt.
Regional client routing does not affect which call is issued for a given
identity, so the region is not threaded into the call identity.
-/

/-- Outcome of one provider API call: success with a payload, a ClientError
with an error code and message, or an unexpected exception with a message. -/
inductive ApiResult (α : Type) where
  | ok (a : α)
  | err (code msg : String)
  | exn (msg : String)
deriving DecidableEq, Repr

def ApiResult.map (f : α → β) : ApiResult α → ApiResult β
  | .ok a => .ok (f a)
  | .err c m => .err c m
  | .exn m => .exn m

def ApiResult.bind : ApiResult α → (α → ApiResult β) → ApiResult β
  | .ok a, f => f a
  | .err c m, _ => .err c m
  | .exn m, _ => .exn m

/-! ## Character-list helpers used by the ARN decomposer

The source uses the regex
`arn:(?P<partition>[^:]+):(?P<service>[^:]+):(?P<region>[^:]*):(?P<account>[^:]*):(?P<resource>.+)`
anchored on both sides, and then `str.find` / `str.split(sep, 1)` on the
resource part. These helpers model those string operations on `List Char`. -/

/-- Split a character list on every occurrence of a separator, as
`str.split(sep)` does: always returns at least one (possibly empty) piece. -/
def splitChar (c : Char) : List Char → List (List Char)
  | [] => [[]]
  | x :: xs =>
    if x = c then [] :: splitChar c xs
    else
      match splitChar c xs with
      | h :: t => (x :: h) :: t
      | [] => [[x]]

/-- Inverse of `splitChar`: interleave the separator back. -/
def joinChar (c : Char) : List (List Char) → List Char
  | [] => []
  | [l] => l
  | l :: ls => l ++ c :: joinChar c ls

/-- Index of the first character satisfying `p`, as `str.find` (with `none`
for the -1 of a missed find). -/
def fIdx (p : Char → Bool) : List Char → Option Nat
  | [] => none
  | x :: xs => if p x then some 0 else (fIdx p xs).map (· + 1)

/-- Split at the first occurrence of `c`, as `str.split(c, 1)` does when `c`
is present: the pair of the part before and the part after that occurrence. -/
def splitOnce (c : Char) : List Char → List Char × List Char
  | [] => ([], [])
  | x :: xs =>
    if x = c then ([], xs)
    else
      let q := splitOnce c xs
      (x :: q.1, q.2)

/-- The `(?P<resource>.+)$` tail of the anchored regex: `.` does not match a
newline and `$` also matches just before one trailing newline, so the match
succeeds exactly on a non-empty newline-free text, optionally followed by a
single final newline that is not captured. -/
def dotPlusMatch (l : List Char) : Option (List Char) :=
  if '\n' ∈ l then
    if l.getLast? = some '\n' ∧ '\n' ∉ l.dropLast ∧ l.dropLast ≠ [] then
      some l.dropLast
    else none
  else if l ≠ [] then some l else none

/-- Structured result of `parse_arn`: the five regex groups plus the derived
resource type and id split off the resource part. -/
structure Arn where
  partition : String
  service : String
  region : String
  account : String
  resource : String
  resource_type : Option String
  resource_id : String
deriving DecidableEq, Repr

/-- The resource-part split of `parse_arn`: find the first `:` and the first
`/`; whichever occurs first is the delimiter; with only one present use it;
with neither the whole part is the id and the type is absent. -/
def splitResource (res : List Char) : Option (List Char) × List Char :=
  let cpos := fIdx (· = ':') res
  let spos := fIdx (· = '/') res
  match cpos, spos with
  | some cp, some sp =>
    if cp < sp then
      let q := splitOnce ':' res
      (some q.1, q.2)
    else
      let q := splitOnce '/' res
      (some q.1, q.2)
  | some _, none =>
    let q := splitOnce ':' res
    (some q.1, q.2)
  | none, some _ =>
    let q := splitOnce '/' res
    (some q.1, q.2)
  | none, none => (none, res)

/-- Embedding of `parse_arn`: match the anchored five-field regex, then split
the resource part at the earlier of its first `:` and first `/`. Returns
`none` (the parse-failure sentinel) when the string does not match. -/
def parse_arn (arn : String) : Option Arn :=
  match splitChar ':' arn.data with
  | hd :: p :: s :: r :: a :: rest =>
    if hd = "arn".data ∧ p ≠ [] ∧ s ≠ [] ∧ rest ≠ [] then
      match dotPlusMatch (joinChar ':' rest) with
      | some res =>
        let q := splitResource res
        some { partition := ⟨p⟩, service := ⟨s⟩, region := ⟨r⟩, account := ⟨a⟩,
               resource := ⟨res⟩, resource_type := q.1.map (⟨·⟩), resource_id := ⟨q.2⟩ }
      | none => none
    else none
  | _ => none

/-! ## The Existence Verifier

`verify_resource_exists` issues one targeted read call per identity. The
oracle `AwsWorld` gives the outcome of every read call the verifier can
make, keyed by the exact string arguments the source passes. Payload types
keep only the response fields the source inspects:
- describe_instances: the reservations, each a list of instance state names;
- describe_nat_gateways: the NAT gateway state names;
- describe_flow_logs: the flow log ids;
- describe_log_groups: the log group names returned for the given name text;
- describe_auto_scaling_groups / describe_launch_configurations: the
  returned record names;
- describe_key: the KeyState of the key metadata.
All other read calls are inspected only for success or failure. -/
structure AwsWorld where
  describe_instances : String → String → ApiResult (List (List String))
  describe_security_groups : String → String → ApiResult Unit
  describe_security_group_rules : String → String → ApiResult Unit
  describe_vpcs : String → String → ApiResult Unit
  describe_subnets : String → String → ApiResult Unit
  describe_internet_gateways : String → String → ApiResult Unit
  describe_route_tables : String → String → ApiResult Unit
  describe_network_acls : String → String → ApiResult Unit
  describe_key_pairs : String → String → ApiResult Unit
  describe_volumes : String → String → ApiResult Unit
  describe_snapshots : String → String → ApiResult Unit
  describe_images : String → String → ApiResult Unit
  describe_addresses : String → String → ApiResult Unit
  describe_nat_gateways : String → String → ApiResult (List String)
  describe_network_interfaces : String → String → ApiResult Unit
  describe_vpc_endpoints : String → String → ApiResult Unit
  describe_flow_logs : String → String → ApiResult (List String)
  describe_db_instances : String → String → ApiResult Unit
  describe_db_clusters : String → String → ApiResult Unit
  describe_db_subnet_groups : String → String → ApiResult Unit
  describe_db_parameter_groups : String → String → ApiResult Unit
  describe_db_security_groups : String → String → ApiResult Unit
  describe_load_balancers : String → String → ApiResult Unit
  describe_target_groups : String → String → ApiResult Unit
  describe_listeners : String → String → ApiResult Unit
  get_function : String → String → ApiResult Unit
  describe_table : String → String → ApiResult Unit
  head_bucket : String → ApiResult Unit
  describe_secret : String → String → ApiResult Unit
  get_role : String → ApiResult Unit
  get_policy : String → ApiResult Unit
  get_instance_profile_read : String → ApiResult Unit
  get_user : String → ApiResult Unit
  describe_log_groups : String → String → ApiResult (List String)
  describe_rule : String → String → ApiResult Unit
  get_topic_attributes : String → String → ApiResult Unit
  get_queue_attributes : String → String → ApiResult Unit
  describe_auto_scaling_groups : String → String → ApiResult (List String)
  describe_launch_configurations : String → String → ApiResult (List String)
  get_hosted_zone : String → ApiResult Unit
  describe_key : String → String → ApiResult String
  describe_cache_clusters : String → String → ApiResult Unit
  describe_cache_subnet_groups : String → String → ApiResult Unit
  describe_domain : String → String → ApiResult Unit

/-- A read call whose payload is ignored: success falls through to the
`return True` at the end of the try block of the source. -/
def chk (r : ApiResult Unit) : ApiResult Bool :=
  r.map (fun _ => true)

/-- The EC2 block of the verifier try body. -/
def verifyEc2 (w : AwsWorld) (p : Arn) : ApiResult Bool :=
  let rg := p.region
  let rid := p.resource_id
  if p.resource_type = some "instance" then
    (w.describe_instances rg rid).bind (fun reservations =>
      if reservations.isEmpty then .ok false
      else
        match reservations with
        | [] => .ok false
        | insts :: _ =>
          match insts with
          | [] => .exn "list index out of range"
          | st :: _ => .ok (decide (st ∉ ["terminated", "shutting-down"])))
  else if p.resource_type = some "security-group" then chk (w.describe_security_groups rg rid)
  else if p.resource_type = some "security-group-rule" then chk (w.describe_security_group_rules rg rid)
  else if p.resource_type = some "vpc" then chk (w.describe_vpcs rg rid)
  else if p.resource_type = some "subnet" then chk (w.describe_subnets rg rid)
  else if p.resource_type = some "internet-gateway" then chk (w.describe_internet_gateways rg rid)
  else if p.resource_type = some "route-table" then chk (w.describe_route_tables rg rid)
  else if p.resource_type = some "network-acl" then chk (w.describe_network_acls rg rid)
  else if p.resource_type = some "key-pair" then chk (w.describe_key_pairs rg rid)
  else if p.resource_type = some "volume" then chk (w.describe_volumes rg rid)
  else if p.resource_type = some "snapshot" then chk (w.describe_snapshots rg rid)
  else if p.resource_type = some "image" then chk (w.describe_images rg rid)
  else if p.resource_type = some "elastic-ip" ∨ p.resource_type = some "eip-allocation" then
    chk (w.describe_addresses rg rid)
  else if p.resource_type = some "natgateway" then
    (w.describe_nat_gateways rg rid).bind (fun gws =>
      match gws with
      | st :: _ => .ok (decide (st ∉ ["deleted", "deleting"]))
      | [] => .ok false)
  else if p.resource_type = some "network-interface" then chk (w.describe_network_interfaces rg rid)
  else if p.resource_type = some "vpc-endpoint" then chk (w.describe_vpc_endpoints rg rid)
  else if p.resource_type = some "vpc-flow-log" then
    (w.describe_flow_logs rg rid).bind (fun logs => .ok (decide (logs.length > 0)))
  else .ok true

/-- The try body of `verify_resource_exists`: dispatch on the service and
resource type and issue the read call. -/
def verifyDispatch (w : AwsWorld) (p : Arn) (arn : String) : ApiResult Bool :=
  let rg := p.region
  let rid := p.resource_id
  if p.service = "ec2" then verifyEc2 w p
  else if p.service = "rds" then
    if p.resource_type = some "db" then chk (w.describe_db_instances rg rid)
    else if p.resource_type = some "cluster" then chk (w.describe_db_clusters rg rid)
    else if p.resource_type = some "subgrp" then chk (w.describe_db_subnet_groups rg rid)
    else if p.resource_type = some "pg" then chk (w.describe_db_parameter_groups rg rid)
    else if p.resource_type = some "secgrp" then chk (w.describe_db_security_groups rg rid)
    else .ok true
  else if p.service = "elasticloadbalancing" then
    if p.resource_type = some "loadbalancer" then chk (w.describe_load_balancers rg arn)
    else if p.resource_type = some "targetgroup" then chk (w.describe_target_groups rg arn)
    else if p.resource_type = some "listener" then chk (w.describe_listeners rg arn)
    else .ok true
  else if p.service = "lambda" then
    if p.resource_type = some "function" then chk (w.get_function rg rid)
    else .ok true
  else if p.service = "dynamodb" then
    if p.resource_type = some "table" then chk (w.describe_table rg rid)
    else .ok true
  else if p.service = "s3" then chk (w.head_bucket rid)
  else if p.service = "secretsmanager" then
    if p.resource_type = some "secret" then chk (w.describe_secret rg arn)
    else .ok true
  else if p.service = "iam" then
    if p.resource_type = some "role" then chk (w.get_role rid)
    else if p.resource_type = some "policy" then chk (w.get_policy arn)
    else if p.resource_type = some "instance-profile" then chk (w.get_instance_profile_read rid)
    else if p.resource_type = some "user" then chk (w.get_user rid)
    else .ok true
  else if p.service = "logs" then
    if p.resource_type = some "log-group" then
      (w.describe_log_groups rg rid).bind (fun names => .ok (names.contains rid))
    else .ok true
  else if p.service = "events" then
    if p.resource_type = some "rule" then chk (w.describe_rule rg rid)
    else .ok true
  else if p.service = "sns" then chk (w.get_topic_attributes rg arn)
  else if p.service = "sqs" then
    chk (w.get_queue_attributes rg
      ("https://sqs." ++ rg ++ ".amazonaws.com/" ++ p.account ++ "/" ++ rid))
  else if p.service = "autoscaling" then
    if p.resource_type = some "autoScalingGroup" then
      (w.describe_auto_scaling_groups rg rid).bind (fun l => .ok (decide (l.length > 0)))
    else if p.resource_type = some "launchConfiguration" then
      (w.describe_launch_configurations rg rid).bind (fun l => .ok (decide (l.length > 0)))
    else .ok true
  else if p.service = "route53" then
    if p.resource_type = some "hostedzone" then chk (w.get_hosted_zone rid)
    else .ok true
  else if p.service = "kms" then
    if p.resource_type = some "key" then
      (w.describe_key rg rid).bind (fun st => .ok (decide (st ∉ ["PendingDeletion", "Disabled"])))
    else .ok true
  else if p.service = "elasticache" then
    if p.resource_type = some "cluster" then chk (w.describe_cache_clusters rg rid)
    else if p.resource_type = some "subnetgroup" then chk (w.describe_cache_subnet_groups rg rid)
    else .ok true
  else if p.service = "es" ∨ p.service = "opensearch" then
    if p.resource_type = some "domain" then chk (w.describe_domain rg rid)
    else .ok true
  else .ok true

/-- The fixed, closed set of provider error codes the verifier classifies as
not-found. -/
def not_found_codes : List String :=
  ["ResourceNotFoundException", "NotFoundException", "NoSuchEntity",
   "InvalidParameterValue", "DBInstanceNotFound", "DBClusterNotFoundFault",
   "DBSubnetGroupNotFoundFault", "LoadBalancerNotFound", "TargetGroupNotFound",
   "InvalidGroup.NotFound", "InvalidSecurityGroupRuleId.NotFound",
   "InvalidVpcID.NotFound", "InvalidSubnetID.NotFound",
   "InvalidInternetGatewayID.NotFound", "InvalidRouteTableID.NotFound",
   "InvalidNetworkAclID.NotFound", "InvalidKeyPair.NotFound",
   "InvalidVolume.NotFound", "InvalidSnapshot.NotFound", "InvalidAMIID.NotFound",
   "InvalidAllocationID.NotFound", "NatGatewayNotFound",
   "InvalidNetworkInterfaceID.NotFound", "InvalidVpcEndpointId.NotFound",
   "NoSuchBucket", "NoSuchHostedZone", "CacheClusterNotFound",
   "CacheSubnetGroupNotFoundFault", "ResourceNotFoundFault", "404"]

/-- Embedding of `verify_resource_exists`: parse the identity (assume exists
on parse failure), run the dispatch, and classify a ClientError as absent
exactly when its code is in `not_found_codes`; any unexpected exception means
assume exists. -/
def verify_resource_exists (w : AwsWorld) (arn : String) : Bool :=
  match parse_arn arn with
  | none => true
  | some p =>
    match verifyDispatch w p arn with
    | .ok b => b
    | .err code _ => !(not_found_codes.contains code)
    | .exn _ => true

/-! ## The Deletion Dispatcher

`delete_resource` dispatches on the service and resource type and issues the
type-specific teardown calls. The embedding returns, besides the outcome,
the trace of events: every mutation call issued (with its exact arguments)
and the interactive bucket confirmation prompt. Paged listings consumed by
the composite teardowns are pure data of the world (a successful listing);
the mutation calls themselves can fail with a ClientError or an unexpected
exception, exactly the failures the source catches. -/

/-- One DNS record set, keeping the fields the source reads (Type) together
with the identifying Name and the rest of the record as opaque data. -/
structure RRecord where
  name : String
  rtype : String
  rdata : String
deriving DecidableEq, Repr

/-- One page of a bucket object-version listing: the (Key, VersionId) pairs
of the versions and of the delete markers. -/
structure S3Page where
  versions : List (String × String)
  deleteMarkers : List (String × String)
deriving DecidableEq, Repr

/-- Every mutation call `delete_resource` can issue, with its arguments. -/
inductive DelCall where
  | terminateInstances (id : String)
  | deleteSecurityGroup (id : String)
  | deleteVpc (id : String)
  | deleteSubnet (id : String)
  | deleteRouteTable (id : String)
  | deleteNetworkAcl (id : String)
  | deleteKeyPair (id : String)
  | deleteVolume (id : String)
  | deleteSnapshot (id : String)
  | deregisterImage (id : String)
  | releaseAddress (id : String)
  | deleteNatGateway (id : String)
  | deleteNetworkInterface (id : String)
  | deleteVpcEndpoints (id : String)
  | deleteFlowLogs (id : String)
  | deleteDbInstance (id : String)
  | deleteDbCluster (id : String)
  | deleteDbSubnetGroup (id : String)
  | deleteDbParameterGroup (id : String)
  | deleteLoadBalancer (arn : String)
  | deleteTargetGroup (arn : String)
  | deleteListener (arn : String)
  | deleteFunction (id : String)
  | deleteTable (id : String)
  | deleteObjects (bucket : String) (objs : List (String × String))
  | deleteBucket (bucket : String)
  | deleteSecret (arn : String)
  | detachRolePolicy (role policyArn : String)
  | deleteRolePolicy (role policyName : String)
  | removeRoleFromInstanceProfile (profile role : String)
  | deleteRole (role : String)
  | deletePolicy (arn : String)
  | deleteInstanceProfile (name : String)
  | deleteLogGroup (name : String)
  | removeTargets (rule : String) (ids : List String)
  | deleteRule (name : String)
  | deleteTopic (arn : String)
  | deleteQueue (url : String)
  | deleteAutoScalingGroup (name : String)
  | deleteLaunchConfiguration (name : String)
  | changeResourceRecordSets (zone : String) (changes : List RRecord)
  | deleteHostedZone (zone : String)
  | scheduleKeyDeletion (id : String)
  | deleteCacheCluster (id : String)
  | deleteCacheSubnetGroup (name : String)
  | deleteDomain (name : String)
deriving DecidableEq, Repr

/-- One observable event of a deletion run: a mutation API call, or the
interactive confirmation prompt for a non-empty bucket (carrying the object
count shown to the user). -/
inductive Event where
  | api (c : DelCall)
  | prompt (count : Nat)
deriving DecidableEq, Repr

/-- Oracle for a deletion run: the outcome of every mutation call, the pure
results of the paged listings the composite teardowns consume, the read of
an instance profile, and the text the user types at the bucket prompt. -/
structure DelWorld where
  mutate : DelCall → ApiResult Unit
  list_attached_role_policies : String → List (List String)
  list_role_policies : String → List (List String)
  list_instance_profiles_for_role : String → List (List String)
  get_instance_profile : String → ApiResult (List String)
  list_targets_by_rule : String → List (List String)
  list_resource_record_sets : String → List (List RRecord)
  list_object_versions : String → List S3Page
  s3_answer : String

/-- Issue the calls in order, stopping at (and recording) the first one that
raises; the pair of the calls actually issued and the final status. -/
def runSeq (w : DelWorld) : List DelCall → List DelCall × ApiResult Unit
  | [] => ([], .ok ())
  | c :: rest =>
    match w.mutate c with
    | .ok _ =>
      let q := runSeq w rest
      (c :: q.1, q.2)
    | .err code msg => ([c], .err code msg)
    | .exn m => ([c], .exn m)

/-- A single-call branch: issue the call; on success report the message. -/
def oneCall (w : DelWorld) (c : DelCall) (okMsg : String) :
    List Event × ApiResult (Bool × String) :=
  ([Event.api c], (w.mutate c).map (fun _ => (true, okMsg)))

/-- A branch that issues no call and returns a refusal outcome. -/
def refuse (msg : String) : List Event × ApiResult (Bool × String) :=
  ([], .ok (false, msg))

/-- Python str() of the optional resource type, as an f-string renders it. -/
def pyStr : Option String → String
  | none => "None"
  | some s => s

/-- The ordered call list of the IAM role teardown: detach every attached
managed policy, delete every inline policy, remove the role from every
instance profile referencing it, then delete the role. -/
def roleDeleteCalls (w : DelWorld) (rid : String) : List DelCall :=
  ((w.list_attached_role_policies rid).flatten.map (fun pa => DelCall.detachRolePolicy rid pa)) ++
  ((w.list_role_policies rid).flatten.map (fun pn => DelCall.deleteRolePolicy rid pn)) ++
  ((w.list_instance_profiles_for_role rid).flatten.map
    (fun ip => DelCall.removeRoleFromInstanceProfile ip rid)) ++
  [DelCall.deleteRole rid]

/-- The IAM role branch of `delete_resource`. -/
def deleteIamRole (w : DelWorld) (rid : String) : List Event × ApiResult (Bool × String) :=
  let nd := (w.list_attached_role_policies rid).flatten.length
  let ni := (w.list_role_policies rid).flatten.length
  let np := (w.list_instance_profiles_for_role rid).flatten.length
  let q := runSeq w (roleDeleteCalls w rid)
  (q.1.map Event.api,
   q.2.map (fun _ =>
     (true, "IAM role deleted (detached " ++ toString nd ++ " policies, deleted " ++
            toString ni ++ " inline policies, removed from " ++ toString np ++
            " instance profiles)")))

/-- The remove-role loop of the instance-profile branch: a ClientError stops
the loop and is swallowed by the inner handler of the source; an unexpected
exception escapes. Returns the calls issued, the number of successful
removals, and the escaped exception message if any. -/
def runRemoveRoles (w : DelWorld) (ipname : String) :
    List String → List DelCall × Nat × Option String
  | [] => ([], 0, none)
  | r :: rest =>
    match w.mutate (DelCall.removeRoleFromInstanceProfile ipname r) with
    | .ok _ =>
      let q := runRemoveRoles w ipname rest
      (DelCall.removeRoleFromInstanceProfile ipname r :: q.1, q.2.1 + 1, q.2.2)
    | .err _ _ => ([DelCall.removeRoleFromInstanceProfile ipname r], 0, none)
    | .exn m => ([DelCall.removeRoleFromInstanceProfile ipname r], 0, some m)

/-- The IAM instance-profile branch: read the profile roles and remove them
(the whole block tolerating a ClientError), then delete the profile. -/
def deleteIamInstanceProfile (w : DelWorld) (ipname : String) :
    List Event × ApiResult (Bool × String) :=
  let pre : List DelCall × Nat × Option String :=
    match w.get_instance_profile ipname with
    | .ok roleNames => runRemoveRoles w ipname roleNames
    | .err _ _ => ([], 0, none)
    | .exn m => ([], 0, some m)
  match pre.2.2 with
  | some m => (pre.1.map Event.api, .exn m)
  | none =>
    let n := pre.2.1
    ((pre.1 ++ [DelCall.deleteInstanceProfile ipname]).map Event.api,
     (w.mutate (DelCall.deleteInstanceProfile ipname)).map (fun _ =>
       (true, "Instance profile deleted (removed " ++ toString n ++ " roles)")))

/-- The remove-targets loop of the events rule branch: per page, skip empty
target lists; a ClientError stops the loop and is swallowed; an unexpected
exception escapes; counts the targets removed by successful calls. -/
def runTargets (w : DelWorld) (rule : String) :
    List (List String) → List DelCall × Nat × Option String
  | [] => ([], 0, none)
  | ids :: rest =>
    if ids = [] then runTargets w rule rest
    else
      match w.mutate (DelCall.removeTargets rule ids) with
      | .ok _ =>
        let q := runTargets w rule rest
        (DelCall.removeTargets rule ids :: q.1, ids.length + q.2.1, q.2.2)
      | .err _ _ => ([DelCall.removeTargets rule ids], 0, none)
      | .exn m => ([DelCall.removeTargets rule ids], 0, some m)

/-- The EventBridge rule branch: remove all targets (tolerating a
ClientError), then delete the rule. -/
def deleteEventsRule (w : DelWorld) (rid : String) : List Event × ApiResult (Bool × String) :=
  let pre := runTargets w rid (w.list_targets_by_rule rid)
  match pre.2.2 with
  | some m => (pre.1.map Event.api, .exn m)
  | none =>
    ((pre.1 ++ [DelCall.deleteRule rid]).map Event.api,
     (w.mutate (DelCall.deleteRule rid)).map (fun _ =>
       (true, "EventBridge rule deleted (removed " ++ toString pre.2.1 ++ " targets)")))

/-- Python str.lower of the confirmation input. -/
def pyLower (s : String) : String := ⟨s.data.map Char.toLower⟩

/-- Python str.strip of the confirmation input: drop whitespace from both
ends. -/
def pyStrip (s : String) : String :=
  ⟨((s.data.dropWhile (·.isWhitespace)).reverse.dropWhile (·.isWhitespace)).reverse⟩

/-- The per-page bulk-delete payloads of a bucket: versions then delete
markers, pages with nothing to delete skipped. -/
def bucketBatches (pages : List S3Page) : List (List (String × String)) :=
  (pages.map (fun pg => pg.versions ++ pg.deleteMarkers)).filter (· ≠ [])

/-- The S3 bucket branch: count all object versions and delete markers; if
any exist, prompt once and stop with a cancelled outcome unless the user
answers yes; otherwise bulk-delete every batch and then delete the bucket. -/
def deleteS3Bucket (w : DelWorld) (bucket : String) : List Event × ApiResult (Bool × String) :=
  let pages := w.list_object_versions bucket
  let object_count := (pages.map (fun pg => pg.versions.length + pg.deleteMarkers.length)).sum
  let okMsg := "Bucket deleted (removed " ++ toString object_count ++ " objects/versions)"
  if object_count > 0 then
    if pyLower (pyStrip w.s3_answer) = "y" ∨ pyLower (pyStrip w.s3_answer) = "yes" then
      let q := runSeq w ((bucketBatches pages).map (DelCall.deleteObjects bucket) ++
                          [DelCall.deleteBucket bucket])
      (Event.prompt object_count :: q.1.map Event.api, q.2.map (fun _ => (true, okMsg)))
    else
      ([Event.prompt object_count], .ok (false, "Bucket deletion cancelled by user"))
  else
    let q := runSeq w [DelCall.deleteBucket bucket]
    (q.1.map Event.api, q.2.map (fun _ => (true, okMsg)))

/-- The per-page change batches of a hosted zone: every record whose Type is
not NS and not SOA, pages with no such record skipped. -/
def zoneBatches (pages : List (List RRecord)) : List (List RRecord) :=
  (pages.map (fun page => page.filter (fun r => !(r.rtype = "NS" ∨ r.rtype = "SOA")))).filter (· ≠ [])

/-- The Route53 hosted zone branch: submit a DELETE change batch for every
page of non-NS/SOA records, then delete the zone. -/
def deleteRoute53Zone (w : DelWorld) (zid : String) : List Event × ApiResult (Bool × String) :=
  let batches := zoneBatches (w.list_resource_record_sets zid)
  let records_deleted := (batches.map List.length).sum
  let q := runSeq w (batches.map (DelCall.changeResourceRecordSets zid) ++
                      [DelCall.deleteHostedZone zid])
  (q.1.map Event.api,
   q.2.map (fun _ =>
     (true, "Hosted zone deleted (removed " ++ toString records_deleted ++ " records)")))

/-- The EC2 block of the deletion dispatcher. -/
def deleteEc2 (w : DelWorld) (p : Arn) : List Event × ApiResult (Bool × String) :=
  if p.resource_type = some "instance" then
    oneCall w (DelCall.terminateInstances p.resource_id) "Instance termination initiated"
  else if p.resource_type = some "security-group" then
    oneCall w (DelCall.deleteSecurityGroup p.resource_id) "Security group deleted"
  else if p.resource_type = some "security-group-rule" then
    refuse "Security group rules must be deleted via security group"
  else if p.resource_type = some "vpc" then
    oneCall w (DelCall.deleteVpc p.resource_id) "VPC deleted"
  else if p.resource_type = some "subnet" then
    oneCall w (DelCall.deleteSubnet p.resource_id) "Subnet deleted"
  else if p.resource_type = some "internet-gateway" then
    refuse "Internet gateway must be detached from VPC first"
  else if p.resource_type = some "route-table" then
    oneCall w (DelCall.deleteRouteTable p.resource_id) "Route table deleted"
  else if p.resource_type = some "network-acl" then
    oneCall w (DelCall.deleteNetworkAcl p.resource_id) "Network ACL deleted"
  else if p.resource_type = some "key-pair" then
    oneCall w (DelCall.deleteKeyPair p.resource_id) "Key pair deleted"
  else if p.resource_type = some "volume" then
    oneCall w (DelCall.deleteVolume p.resource_id) "Volume deleted"
  else if p.resource_type = some "snapshot" then
    oneCall w (DelCall.deleteSnapshot p.resource_id) "Snapshot deleted"
  else if p.resource_type = some "image" then
    oneCall w (DelCall.deregisterImage p.resource_id) "AMI deregistered"
  else if p.resource_type = some "elastic-ip" ∨ p.resource_type = some "eip-allocation" then
    oneCall w (DelCall.releaseAddress p.resource_id) "Elastic IP released"
  else if p.resource_type = some "natgateway" then
    oneCall w (DelCall.deleteNatGateway p.resource_id) "NAT Gateway deletion initiated"
  else if p.resource_type = some "network-interface" then
    oneCall w (DelCall.deleteNetworkInterface p.resource_id) "Network interface deleted"
  else if p.resource_type = some "vpc-endpoint" then
    oneCall w (DelCall.deleteVpcEndpoints p.resource_id) "VPC endpoint deleted"
  else if p.resource_type = some "vpc-flow-log" then
    oneCall w (DelCall.deleteFlowLogs p.resource_id) "VPC flow log deleted"
  else refuse ("Unknown EC2 resource type: " ++ pyStr p.resource_type)

/-- The try body of `delete_resource`: dispatch on the service and resource
type and run the type-specific teardown. -/
def delete_dispatch (w : DelWorld) (p : Arn) (arn : String) :
    List Event × ApiResult (Bool × String) :=
  if p.service = "ec2" then deleteEc2 w p
  else if p.service = "rds" then
    if p.resource_type = some "db" then
      oneCall w (DelCall.deleteDbInstance p.resource_id) "RDS instance deletion initiated"
    else if p.resource_type = some "cluster" then
      oneCall w (DelCall.deleteDbCluster p.resource_id) "RDS cluster deletion initiated"
    else if p.resource_type = some "subgrp" then
      oneCall w (DelCall.deleteDbSubnetGroup p.resource_id) "DB subnet group deleted"
    else if p.resource_type = some "pg" then
      oneCall w (DelCall.deleteDbParameterGroup p.resource_id) "DB parameter group deleted"
    else refuse ("Unknown RDS resource type: " ++ pyStr p.resource_type)
  else if p.service = "elasticloadbalancing" then
    if p.resource_type = some "loadbalancer" then
      oneCall w (DelCall.deleteLoadBalancer arn) "Load balancer deleted"
    else if p.resource_type = some "targetgroup" then
      oneCall w (DelCall.deleteTargetGroup arn) "Target group deleted"
    else if p.resource_type = some "listener" then
      oneCall w (DelCall.deleteListener arn) "Listener deleted"
    else refuse ("Unknown ELB resource type: " ++ pyStr p.resource_type)
  else if p.service = "lambda" then
    if p.resource_type = some "function" then
      oneCall w (DelCall.deleteFunction p.resource_id) "Lambda function deleted"
    else refuse ("Unknown Lambda resource type: " ++ pyStr p.resource_type)
  else if p.service = "dynamodb" then
    if p.resource_type = some "table" then
      oneCall w (DelCall.deleteTable p.resource_id) "DynamoDB table deleted"
    else refuse ("Unknown DynamoDB resource type: " ++ pyStr p.resource_type)
  else if p.service = "s3" then deleteS3Bucket w p.resource_id
  else if p.service = "secretsmanager" then
    if p.resource_type = some "secret" then
      oneCall w (DelCall.deleteSecret arn) "Secret deleted"
    else refuse ("Unknown Secrets Manager resource type: " ++ pyStr p.resource_type)
  else if p.service = "iam" then
    if p.resource_type = some "role" then deleteIamRole w p.resource_id
    else if p.resource_type = some "policy" then
      oneCall w (DelCall.deletePolicy arn) "IAM policy deleted"
    else if p.resource_type = some "instance-profile" then deleteIamInstanceProfile w p.resource_id
    else refuse ("Unknown IAM resource type: " ++ pyStr p.resource_type)
  else if p.service = "logs" then
    if p.resource_type = some "log-group" then
      oneCall w (DelCall.deleteLogGroup p.resource_id) "Log group deleted"
    else refuse ("Unknown CloudWatch Logs resource type: " ++ pyStr p.resource_type)
  else if p.service = "events" then
    if p.resource_type = some "rule" then deleteEventsRule w p.resource_id
    else refuse ("Unknown EventBridge resource type: " ++ pyStr p.resource_type)
  else if p.service = "sns" then
    oneCall w (DelCall.deleteTopic arn) "SNS topic deleted"
  else if p.service = "sqs" then
    oneCall w (DelCall.deleteQueue
      ("https://sqs." ++ p.region ++ ".amazonaws.com/" ++ p.account ++ "/" ++ p.resource_id))
      "SQS queue deleted"
  else if p.service = "autoscaling" then
    if p.resource_type = some "autoScalingGroup" then
      oneCall w (DelCall.deleteAutoScalingGroup p.resource_id) "Auto Scaling group deletion initiated"
    else if p.resource_type = some "launchConfiguration" then
      oneCall w (DelCall.deleteLaunchConfiguration p.resource_id) "Launch configuration deleted"
    else refuse ("Unknown Auto Scaling resource type: " ++ pyStr p.resource_type)
  else if p.service = "route53" then
    if p.resource_type = some "hostedzone" then deleteRoute53Zone w p.resource_id
    else refuse ("Unknown Route53 resource type: " ++ pyStr p.resource_type)
  else if p.service = "kms" then
    if p.resource_type = some "key" then
      oneCall w (DelCall.scheduleKeyDeletion p.resource_id) "KMS key scheduled for deletion (7 days)"
    else refuse ("Unknown KMS resource type: " ++ pyStr p.resource_type)
  else if p.service = "elasticache" then
    if p.resource_type = some "cluster" then
      oneCall w (DelCall.deleteCacheCluster p.resource_id) "ElastiCache cluster deletion initiated"
    else if p.resource_type = some "subnetgroup" then
      oneCall w (DelCall.deleteCacheSubnetGroup p.resource_id) "ElastiCache subnet group deleted"
    else refuse ("Unknown ElastiCache resource type: " ++ pyStr p.resource_type)
  else if p.service = "es" ∨ p.service = "opensearch" then
    if p.resource_type = some "domain" then
      oneCall w (DelCall.deleteDomain p.resource_id) "OpenSearch domain deletion initiated"
    else refuse ("Unknown OpenSearch resource type: " ++ pyStr p.resource_type)
  else refuse ("Unknown service: " ++ p.service)

/-- Embedding of `delete_resource`: parse the identity (refusing on parse
failure), run the dispatch, and turn a ClientError into a failed outcome
carrying the provider message and an unexpected exception into a failed
outcome carrying its message. Besides the outcome pair the embedding returns
the trace of events of the run. -/
def delete_resource (w : DelWorld) (arn : String) : List Event × (Bool × String) :=
  match parse_arn arn with
  | none => ([], (false, "Cannot parse ARN"))
  | some p =>
    let q := delete_dispatch w p arn
    match q.2 with
    | .ok out => (q.1, out)
    | .err _ msg => (q.1, (false, "AWS Error: " ++ msg))
    | .exn msg => (q.1, (false, "Error: " ++ msg))

/-! ## The Resource Directory

`find_iam_roles_by_tag` enumerates roles directly and keeps those carrying
the searched tag; `find_resources_by_tag` emits those first, then walks the
indexed tag search, skipping identifiers already seen. Tag maps are
modelled as association lists with the last binding of a key winning, the
dict semantics of the source. A failing role-tag read (a ClientError) skips
that role; non-ClientError failures of the directory reads are outside the
model. -/

/-- One role record of the direct enumeration, keeping the fields read. -/
structure IamRole where
  roleName : String
  arn : String
deriving DecidableEq, Repr

/-- One result of the indexed tag search: the identifier and its tag list. -/
structure TaggedItem where
  resourceARN : String
  tags : List (String × String)
deriving DecidableEq, Repr

/-- One discovered resource: identifier, tag map, and existence flag. -/
structure Resource where
  arn : String
  tags : List (String × String)
  existsFlag : Bool
deriving DecidableEq, Repr

/-- Oracle for a discovery run: the verification world, the pages of the
direct role enumeration, the per-role tag read (`none` models the
ClientError the source skips), and the pages of the indexed tag search. -/
structure DirWorld where
  aws : AwsWorld
  list_roles : List (List IamRole)
  list_role_tags : String → Option (List (String × String))
  get_resources : List (List TaggedItem)

/-- dict get: the value of the last binding of the key, if any. -/
def tagGet (l : List (String × String)) (k : String) : Option String :=
  l.foldl (fun acc kv => if kv.1 = k then some kv.2 else acc) none

/-- Embedding of `find_iam_roles_by_tag`: every directly enumerated role
whose tag read succeeds and whose tag map carries the searched pair, with
its tag map and an existence flag already set to true. -/
def find_iam_roles_by_tag (w : DirWorld) (tag_key tag_value : String) : List Resource :=
  w.list_roles.flatten.filterMap (fun role =>
    match w.list_role_tags role.roleName with
    | none => none
    | some tags =>
      if tagGet tags tag_key = some tag_value then
        some { arn := role.arn, tags := tags, existsFlag := true }
      else none)

/-- One step of the indexed tag search walk: skip an already seen
identifier, otherwise verify (when asked) and append, recording the
identifier as seen. -/
def tagSearchStep (aws : AwsWorld) (vrfy : Bool) (acc : List Resource × List String)
    (item : TaggedItem) : List Resource × List String :=
  if item.resourceARN ∈ acc.2 then acc
  else
    (acc.1 ++ [{ arn := item.resourceARN, tags := item.tags,
                 existsFlag := if vrfy then verify_resource_exists aws item.resourceARN else true }],
     acc.2 ++ [item.resourceARN])

/-- Embedding of `find_resources_by_tag`: the directly enumerated roles
first (each recorded in the seen set), then the indexed tag search results
not already seen, each verified when verification is on. -/
def find_resources_by_tag (w : DirWorld) (tag_key tag_value : String) (vrfy : Bool) :
    List Resource :=
  let roles := find_iam_roles_by_tag w tag_key tag_value
  (w.get_resources.flatten.foldl (tagSearchStep w.aws vrfy) (roles, roles.map (·.arn))).1

/-! ## Concrete worlds used to evaluate the embeddings -/

/-- A verification world where every read call succeeds with an empty or
neutral payload. -/
def trivAws : AwsWorld where
  describe_instances := fun _ _ => .ok []
  describe_security_groups := fun _ _ => .ok ()
  describe_security_group_rules := fun _ _ => .ok ()
  describe_vpcs := fun _ _ => .ok ()
  describe_subnets := fun _ _ => .ok ()
  describe_internet_gateways := fun _ _ => .ok ()
  describe_route_tables := fun _ _ => .ok ()
  describe_network_acls := fun _ _ => .ok ()
  describe_key_pairs := fun _ _ => .ok ()
  describe_volumes := fun _ _ => .ok ()
  describe_snapshots := fun _ _ => .ok ()
  describe_images := fun _ _ => .ok ()
  describe_addresses := fun _ _ => .ok ()
  describe_nat_gateways := fun _ _ => .ok []
  describe_network_interfaces := fun _ _ => .ok ()
  describe_vpc_endpoints := fun _ _ => .ok ()
  describe_flow_logs := fun _ _ => .ok []
  describe_db_instances := fun _ _ => .ok ()
  describe_db_clusters := fun _ _ => .ok ()
  describe_db_subnet_groups := fun _ _ => .ok ()
  describe_db_parameter_groups := fun _ _ => .ok ()
  describe_db_security_groups := fun _ _ => .ok ()
  describe_load_balancers := fun _ _ => .ok ()
  describe_target_groups := fun _ _ => .ok ()
  describe_listeners := fun _ _ => .ok ()
  get_function := fun _ _ => .ok ()
  describe_table := fun _ _ => .ok ()
  head_bucket := fun _ => .ok ()
  describe_secret := fun _ _ => .ok ()
  get_role := fun _ => .ok ()
  get_policy := fun _ => .ok ()
  get_instance_profile_read := fun _ => .ok ()
  get_user := fun _ => .ok ()
  describe_log_groups := fun _ _ => .ok []
  describe_rule := fun _ _ => .ok ()
  get_topic_attributes := fun _ _ => .ok ()
  get_queue_attributes := fun _ _ => .ok ()
  describe_auto_scaling_groups := fun _ _ => .ok []
  describe_launch_configurations := fun _ _ => .ok []
  get_hosted_zone := fun _ => .ok ()
  describe_key := fun _ _ => .ok "Enabled"
  describe_cache_clusters := fun _ _ => .ok ()
  describe_cache_subnet_groups := fun _ _ => .ok ()
  describe_domain := fun _ _ => .ok ()

/-- A deletion world where every mutation succeeds, every listing is empty,
and the user types nothing at the prompt. -/
def trivDel : DelWorld where
  mutate := fun _ => .ok ()
  list_attached_role_policies := fun _ => []
  list_role_policies := fun _ => []
  list_instance_profiles_for_role := fun _ => []
  get_instance_profile := fun _ => .ok []
  list_targets_by_rule := fun _ => []
  list_resource_record_sets := fun _ => []
  list_object_versions := fun _ => []
  s3_answer := ""

/-- A directory world with no roles and no indexed results. -/
def trivDir : DirWorld where
  aws := trivAws
  list_roles := []
  list_role_tags := fun _ => some []
  get_resources := []

/-- The environment assumption that every paged listing a deletion consumes
enumerates pairwise distinct objects (and distinct per-page batches), the
real behaviour of the provider listings. -/
def nodupListings (w : DelWorld) : Prop :=
  (∀ r, ((w.list_attached_role_policies r).flatten).Nodup) ∧
  (∀ r, ((w.list_role_policies r).flatten).Nodup) ∧
  (∀ r, ((w.list_instance_profiles_for_role r).flatten).Nodup) ∧
  (∀ n roles, w.get_instance_profile n = .ok roles → roles.Nodup) ∧
  (∀ r, ((w.list_targets_by_rule r).filter (· ≠ [])).Nodup) ∧
  (∀ b, (bucketBatches (w.list_object_versions b)).Nodup) ∧
  (∀ z, (zoneBatches (w.list_resource_record_sets z)).Nodup)

/-- A deletion world for a role with one attached managed policy whose
detach call raises a ClientError; every other mutation succeeds. -/
def c3World : DelWorld :=
  { trivDel with
    list_attached_role_policies := fun _ => [["arn:aws:iam::aws:policy/P"]],
    mutate := fun c =>
      match c with
      | DelCall.detachRolePolicy _ _ => ApiResult.err "DeleteConflict" "cannot detach"
      | _ => ApiResult.ok () }

/-- A deletion world for a role with two attached policies, one inline
policy and one referencing instance profile, all calls succeeding. -/
def c3OkWorld : DelWorld :=
  { trivDel with
    list_attached_role_policies := fun _ => [["pa1"], ["pa2"]],
    list_role_policies := fun _ => [["inl1"]],
    list_instance_profiles_for_role := fun _ => [["prof1"]] }

/-- A deletion world for a bucket holding one object version and one delete
marker, with a user who answers no at the prompt. -/
def c4World : DelWorld :=
  { trivDel with
    list_object_versions := fun _ => [{ versions := [("k1", "v1")], deleteMarkers := [("k2", "m1")] }],
    s3_answer := "n" }

/-- A deletion world for a hosted zone holding two NS record sets with two
different names (at most one of which can be the zone apex). -/
def c8World : DelWorld :=
  { trivDel with
    list_resource_record_sets := fun _ =>
      [[{ name := "a.example.com.", rtype := "NS", rdata := "ns1" },
        { name := "b.example.com.", rtype := "NS", rdata := "ns2" }]] }

/-- A deletion world for a hosted zone holding one A record and one SOA
record. -/
def c8OkWorld : DelWorld :=
  { trivDel with
    list_resource_record_sets := fun _ =>
      [[{ name := "www.example.com.", rtype := "A", rdata := "1.2.3.4" },
        { name := "example.com.", rtype := "SOA", rdata := "soa" }]] }

/-- A directory world with one tagged role that also shows up in the indexed
tag search next to one instance. -/
def c6World : DirWorld :=
  { trivDir with
    list_roles := [[{ roleName := "r1", arn := "arn:aws:iam::1:role/r1" }]],
    list_role_tags := fun _ => some [("k", "v")],
    get_resources :=
      [[{ resourceARN := "arn:aws:iam::1:role/r1", tags := [("k", "v")] },
        { resourceARN := "arn:aws:ec2:us-west-2:1:instance/i-1", tags := [("k", "v")] }]] }

/-! ## Lemmas about the decomposer helpers -/

theorem splitChar_ne_nil (c : Char) (l : List Char) : splitChar c l ≠ [] := by
  induction l with
  | nil => simp [splitChar]
  | cons x xs ih =>
    simp only [splitChar]
    split
    · simp
    · split
      · simp
      · simp

theorem splitChar_sep_append (c : Char) (a b : List Char) (h : c ∉ a) :
    splitChar c (a ++ c :: b) = a :: splitChar c b := by
  induction a with
  | nil => simp [splitChar]
  | cons x xs ih =>
    have hxc : ¬ x = c := by rintro rfl; exact h (List.mem_cons_self x xs)
    have hxs : c ∉ xs := fun hm => h (List.mem_cons_of_mem x hm)
    simp only [List.cons_append, splitChar, List.append_eq, if_neg hxc, ih hxs]

theorem joinChar_splitChar (c : Char) (l : List Char) :
    joinChar c (splitChar c l) = l := by
  induction l with
  | nil => simp [splitChar, joinChar]
  | cons x xs ih =>
    simp only [splitChar]
    by_cases hx : x = c
    · subst hx
      simp only [if_pos rfl]
      have hne := splitChar_ne_nil x xs
      match hsp : splitChar x xs with
      | [] => exact absurd hsp hne
      | y :: ys =>
        rw [hsp] at ih
        simp only [joinChar]
        rw [ih]
        simp
    · simp only [if_neg hx]
      have hne := splitChar_ne_nil c xs
      match hsp : splitChar c xs with
      | [] => exact absurd hsp hne
      | y :: ys =>
        rw [hsp] at ih
        match ys with
        | [] => simp only [joinChar] at ih ⊢; rw [ih]
        | z :: zs => simp only [joinChar] at ih ⊢; rw [List.cons_append, ih]

theorem fIdx_none_of_both {res : List Char}
    (hc : fIdx (fun ch => ch = ':' ∨ ch = '/') res = none) :
    fIdx (· = ':') res = none ∧ fIdx (· = '/') res = none := by
  induction res with
  | nil => simp [fIdx]
  | cons x xs ih =>
    simp only [fIdx] at hc
    by_cases h1 : x = ':'
    · simp [h1] at hc
    · by_cases h2 : x = '/'
      · simp [h2] at hc
      · rw [if_neg (by simp [h1, h2])] at hc
        cases hfx : fIdx (fun ch => ch = ':' ∨ ch = '/') xs with
        | some k => rw [hfx] at hc; simp at hc
        | none =>
          obtain ⟨hcx, hsx⟩ := ih hfx
          exact ⟨by simp [fIdx, h1, hcx], by simp [fIdx, h2, hsx]⟩

theorem splitResource_of_none {res : List Char}
    (h : fIdx (fun ch => ch = ':' ∨ ch = '/') res = none) :
    splitResource res = (none, res) := by
  obtain ⟨hc, hs⟩ := fIdx_none_of_both h
  simp [splitResource, hc, hs]

theorem splitResource_eq (res : List Char) : splitResource res =
    match fIdx (· = ':') res, fIdx (· = '/') res with
    | some cp, some sp =>
      if cp < sp then (some (splitOnce ':' res).1, (splitOnce ':' res).2)
      else (some (splitOnce '/' res).1, (splitOnce '/' res).2)
    | some _, none => (some (splitOnce ':' res).1, (splitOnce ':' res).2)
    | none, some _ => (some (splitOnce '/' res).1, (splitOnce '/' res).2)
    | none, none => (none, res) := rfl

theorem fIdx_cons (p : Char → Bool) (x : Char) (xs : List Char) :
    fIdx p (x :: xs) = if p x then some 0 else (fIdx p xs).map (· + 1) := rfl

theorem splitOnce_cons_ne (c x : Char) (xs : List Char) (h : ¬ x = c) :
    splitOnce c (x :: xs) = (x :: (splitOnce c xs).1, (splitOnce c xs).2) := by
  simp [splitOnce, h]

theorem splitResource_cons_shift (x : Char) (xs : List Char)
    (h1 : ¬ x = ':') (h2 : ¬ x = '/') :
    splitResource (x :: xs) =
      match splitResource xs with
      | (some t, i) => (some (x :: t), i)
      | (none, _) => (none, x :: xs) := by
  rw [splitResource_eq (x :: xs), splitResource_eq xs]
  rw [fIdx_cons, fIdx_cons, if_neg (by simp [h1]), if_neg (by simp [h2])]
  cases hc : fIdx (· = ':') xs with
  | some cm =>
    cases hs : fIdx (· = '/') xs with
    | some sm =>
      simp only [Option.map_some']
      by_cases hlt : cm < sm
      · rw [if_pos hlt, if_pos (by omega)]
        simp [splitOnce_cons_ne ':' x xs h1]
      · rw [if_neg hlt, if_neg (by omega)]
        simp [splitOnce_cons_ne '/' x xs h2]
    | none =>
      simp only [Option.map_some', Option.map_none']
      simp [splitOnce_cons_ne ':' x xs h1]
  | none =>
    cases hs : fIdx (· = '/') xs with
    | some sm =>
      simp only [Option.map_some', Option.map_none']
      simp [splitOnce_cons_ne '/' x xs h2]
    | none => simp

theorem splitResource_of_some (res : List Char) (k : Nat)
    (h : fIdx (fun ch => ch = ':' ∨ ch = '/') res = some k) :
    splitResource res = (some (res.take k), res.drop (k + 1)) := by
  induction res generalizing k with
  | nil => simp [fIdx] at h
  | cons x xs ih =>
    by_cases h1 : x = ':'
    · have hk : k = 0 := by
        rw [fIdx, if_pos (by simp [h1])] at h
        exact (Option.some.inj h).symm
      subst hk
      rw [splitResource_eq, fIdx_cons, fIdx_cons, if_pos (by simp [h1]),
        if_neg (by simp [show ¬ x = '/' by rw [h1]; decide])]
      cases hs : fIdx (· = '/') xs with
      | some m =>
        simp only [Option.map_some']
        rw [if_pos (Nat.succ_pos m)]
        simp [splitOnce, h1]
      | none => simp [splitOnce, h1]
    · by_cases h2 : x = '/'
      · have hk : k = 0 := by
          rw [fIdx, if_pos (by simp [h2])] at h
          exact (Option.some.inj h).symm
        subst hk
        rw [splitResource_eq, fIdx_cons, fIdx_cons, if_neg (by simp [h1]),
          if_pos (by simp [h2])]
        cases hc : fIdx (· = ':') xs with
        | some m =>
          simp only [Option.map_some']
          rw [if_neg (by omega)]
          simp [splitOnce, h2]
        | none => simp [splitOnce, h2]
      · rw [fIdx, if_neg (by simp [h1, h2])] at h
        cases hfx : fIdx (fun ch => ch = ':' ∨ ch = '/') xs with
        | none => rw [hfx] at h; simp at h
        | some k' =>
          rw [hfx] at h
          simp only [Option.map_some'] at h
          have hk : k = k' + 1 := (Option.some.inj h).symm
          subst hk
          rw [splitResource_cons_shift x xs h1 h2, ih k' hfx]
          simp

theorem parse_arn_eq (l : List Char) : parse_arn ⟨l⟩ =
    match splitChar ':' l with
    | hd :: p :: s :: r :: a :: rest =>
      if hd = "arn".data ∧ p ≠ [] ∧ s ≠ [] ∧ rest ≠ [] then
        match dotPlusMatch (joinChar ':' rest) with
        | some res =>
          some { partition := ⟨p⟩, service := ⟨s⟩, region := ⟨r⟩, account := ⟨a⟩,
                 resource := ⟨res⟩, resource_type := (splitResource res).1.map (⟨·⟩),
                 resource_id := ⟨(splitResource res).2⟩ }
        | none => none
      else none
    | _ => none := rfl

/-- C2: every raw identifier made of the literal arn head, a non-empty
colon-free partition and service, a colon-free region and account and a
non-empty resource part parses; the resource part is split at the first
character that is a colon or a slash, whichever comes first, into the type
and the id, and with neither delimiter the type is absent and the id is the
whole part; in particular the log-group identifier splits at its leading
colon, and a string that does not match the five-field pattern yields the
parse-failure sentinel. -/
theorem claim_C2_parse_arn_split :
    (∀ (p s r a res : List Char),
      ':' ∉ p → ':' ∉ s → ':' ∉ r → ':' ∉ a →
      p ≠ [] → s ≠ [] → res ≠ [] → '\n' ∉ res →
      ∃ A, parse_arn ⟨"arn".data ++ ':' :: (p ++ ':' :: (s ++ ':' :: (r ++ ':' :: (a ++ ':' :: res))))⟩ = some A ∧
        A.partition = ⟨p⟩ ∧ A.service = ⟨s⟩ ∧ A.region = ⟨r⟩ ∧ A.account = ⟨a⟩ ∧
        A.resource = ⟨res⟩ ∧
        (∀ k, fIdx (fun ch => ch = ':' ∨ ch = '/') res = some k →
          A.resource_type = some ⟨res.take k⟩ ∧ A.resource_id = ⟨res.drop (k + 1)⟩) ∧
        (fIdx (fun ch => ch = ':' ∨ ch = '/') res = none →
          A.resource_type = none ∧ A.resource_id = ⟨res⟩)) ∧
    parse_arn "arn:aws:logs:us-west-2:123:log-group:/aws/lambda/foo" =
      some { partition := "aws", service := "logs", region := "us-west-2", account := "123",
             resource := "log-group:/aws/lambda/foo", resource_type := some "log-group",
             resource_id := "/aws/lambda/foo" } ∧
    parse_arn "not-an-arn" = none := by
  refine ⟨?_, by rfl, by rfl⟩
  intro p s r a res hp hs hr ha hpne hsne hresne hresnl
  have hsplit : splitChar ':'
      ("arn".data ++ ':' :: (p ++ ':' :: (s ++ ':' :: (r ++ ':' :: (a ++ ':' :: res))))) =
      "arn".data :: p :: s :: r :: a :: splitChar ':' res := by
    rw [splitChar_sep_append ':' "arn".data _ (by decide),
      splitChar_sep_append ':' p _ hp, splitChar_sep_append ':' s _ hs,
      splitChar_sep_append ':' r _ hr, splitChar_sep_append ':' a _ ha]
  have hjoin : joinChar ':' (splitChar ':' res) = res := joinChar_splitChar ':' res
  have hdot : dotPlusMatch res = some res := by
    unfold dotPlusMatch
    rw [if_neg hresnl, if_pos hresne]
  refine ⟨{ partition := ⟨p⟩, service := ⟨s⟩, region := ⟨r⟩, account := ⟨a⟩,
            resource := ⟨res⟩, resource_type := (splitResource res).1.map (⟨·⟩),
            resource_id := ⟨(splitResource res).2⟩ }, ?_, rfl, rfl, rfl, rfl, rfl, ?_, ?_⟩
  · rw [parse_arn_eq]
    simp only [hsplit]
    rw [if_pos (show _ ∧ _ ∧ _ ∧ _ from ⟨by simp, hpne, hsne, splitChar_ne_nil ':' res⟩)]
    rw [hjoin, hdot]
  · intro k hk
    simp [splitResource_of_some res k hk]
  · intro hk
    simp [splitResource_of_none hk]

theorem claim_C2_witness :
    ':' ∉ "aws".data ∧ ':' ∉ "ec2".data ∧ ':' ∉ "us".data ∧ ':' ∉ "1".data ∧
    "aws".data ≠ [] ∧ "ec2".data ≠ [] ∧ "instance/i-0123".data ≠ [] ∧
    '\n' ∉ "instance/i-0123".data ∧
    ∃ A, parse_arn ⟨"arn".data ++ ':' :: ("aws".data ++ ':' :: ("ec2".data ++ ':' ::
          ("us".data ++ ':' :: ("1".data ++ ':' :: "instance/i-0123".data))))⟩ = some A ∧
      A.resource_type = some ⟨"instance/i-0123".data.take 8⟩ ∧
      A.resource_id = ⟨"instance/i-0123".data.drop 9⟩ := by
  refine ⟨by decide, by decide, by decide, by decide, by decide, by decide, by decide, by decide, ?_⟩
  obtain ⟨A, hA, -, -, -, -, -, hsome, -⟩ :=
    claim_C2_parse_arn_split.1 "aws".data "ec2".data "us".data "1".data "instance/i-0123".data
      (by decide) (by decide) (by decide) (by decide) (by decide) (by decide) (by decide) (by decide)
  obtain ⟨h1, h2⟩ := hsome 8 (by decide)
  exact ⟨A, hA, h1, h2⟩

theorem verify_red (w : AwsWorld) (arn : String) (p : Arn) (hp : parse_arn arn = some p) :
    verify_resource_exists w arn =
      match verifyDispatch w p arn with
      | .ok b => b
      | .err code _ => !(not_found_codes.contains code)
      | .exn _ => true := by
  simp only [verify_resource_exists, hp]

/-- C1: whenever the read call of an identity raises a ClientError, the
verifier reports absent exactly when the error code is in the fixed
not-found set; and every other failure mode, namely an unexpected
exception, an unknown resource type for every known service, an unknown
service, and an unparseable identity string, reports exists. -/
theorem claim_C1_fail_open (w : AwsWorld) (arn : String) :
    (parse_arn arn = none → verify_resource_exists w arn = true) ∧
    (∀ p, parse_arn arn = some p →
      (∀ code msg, verifyDispatch w p arn = .err code msg →
        (verify_resource_exists w arn = false ↔ code ∈ not_found_codes)) ∧
      (∀ msg, verifyDispatch w p arn = .exn msg → verify_resource_exists w arn = true) ∧
      (p.service = "ec2" →
        p.resource_type ∉ ([some "instance", some "security-group",
          some "security-group-rule", some "vpc", some "subnet", some "internet-gateway",
          some "route-table", some "network-acl", some "key-pair", some "volume",
          some "snapshot", some "image", some "elastic-ip", some "eip-allocation",
          some "natgateway", some "network-interface", some "vpc-endpoint",
          some "vpc-flow-log"] : List (Option String)) →
        verify_resource_exists w arn = true) ∧
      (p.service = "rds" →
        p.resource_type ∉ ([some "db", some "cluster", some "subgrp", some "pg",
          some "secgrp"] : List (Option String)) →
        verify_resource_exists w arn = true) ∧
      (p.service = "elasticloadbalancing" →
        p.resource_type ∉ ([some "loadbalancer", some "targetgroup",
          some "listener"] : List (Option String)) →
        verify_resource_exists w arn = true) ∧
      (p.service = "lambda" → p.resource_type ∉ ([some "function"] : List (Option String)) →
        verify_resource_exists w arn = true) ∧
      (p.service = "dynamodb" → p.resource_type ∉ ([some "table"] : List (Option String)) →
        verify_resource_exists w arn = true) ∧
      (p.service = "secretsmanager" →
        p.resource_type ∉ ([some "secret"] : List (Option String)) →
        verify_resource_exists w arn = true) ∧
      (p.service = "iam" →
        p.resource_type ∉ ([some "role", some "policy", some "instance-profile",
          some "user"] : List (Option String)) →
        verify_resource_exists w arn = true) ∧
      (p.service = "logs" → p.resource_type ∉ ([some "log-group"] : List (Option String)) →
        verify_resource_exists w arn = true) ∧
      (p.service = "events" → p.resource_type ∉ ([some "rule"] : List (Option String)) →
        verify_resource_exists w arn = true) ∧
      (p.service = "autoscaling" →
        p.resource_type ∉ ([some "autoScalingGroup",
          some "launchConfiguration"] : List (Option String)) →
        verify_resource_exists w arn = true) ∧
      (p.service = "route53" → p.resource_type ∉ ([some "hostedzone"] : List (Option String)) →
        verify_resource_exists w arn = true) ∧
      (p.service = "kms" → p.resource_type ∉ ([some "key"] : List (Option String)) →
        verify_resource_exists w arn = true) ∧
      (p.service = "elasticache" →
        p.resource_type ∉ ([some "cluster", some "subnetgroup"] : List (Option String)) →
        verify_resource_exists w arn = true) ∧
      ((p.service = "es" ∨ p.service = "opensearch") →
        p.resource_type ∉ ([some "domain"] : List (Option String)) →
        verify_resource_exists w arn = true) ∧
      (p.service ∉ (["ec2", "rds", "elasticloadbalancing", "lambda", "dynamodb", "s3",
          "secretsmanager", "iam", "logs", "events", "sns", "sqs", "autoscaling",
          "route53", "kms", "elasticache", "es", "opensearch"] : List String) →
        verify_resource_exists w arn = true)) := by
  constructor
  · intro h
    simp only [verify_resource_exists, h]
  · intro p hp
    have hred := verify_red w arn p hp
    refine ⟨?_, ?_, ?_, ?_, ?_, ?_, ?_, ?_, ?_, ?_, ?_, ?_, ?_, ?_, ?_, ?_, ?_⟩
    · intro code msg hd
      rw [hred, hd]
      simp
    · intro msg hd
      rw [hred, hd]
    · intro hsvc ht
      simp only [List.mem_cons, List.not_mem_nil, or_false, not_or] at ht
      obtain ⟨h1, h2, h3, h4, h5, h6, h7, h8, h9, h10, h11, h12, h13, h14, h15, h16,
        h17, h18⟩ := ht
      rw [hred, show verifyDispatch w p arn = .ok true by
        simp [verifyDispatch, verifyEc2, hsvc, h1, h2, h3, h4, h5, h6, h7, h8, h9, h10,
          h11, h12, h13, h14, h15, h16, h17, h18]]
    · intro hsvc ht
      simp only [List.mem_cons, List.not_mem_nil, or_false, not_or] at ht
      obtain ⟨h1, h2, h3, h4, h5⟩ := ht
      rw [hred, show verifyDispatch w p arn = .ok true by
        simp [verifyDispatch, hsvc, h1, h2, h3, h4, h5]]
    · intro hsvc ht
      simp only [List.mem_cons, List.not_mem_nil, or_false, not_or] at ht
      obtain ⟨h1, h2, h3⟩ := ht
      rw [hred, show verifyDispatch w p arn = .ok true by
        simp [verifyDispatch, hsvc, h1, h2, h3]]
    · intro hsvc ht
      simp only [List.mem_cons, List.not_mem_nil, or_false, not_or] at ht
      rw [hred, show verifyDispatch w p arn = .ok true by simp [verifyDispatch, hsvc, ht]]
    · intro hsvc ht
      simp only [List.mem_cons, List.not_mem_nil, or_false, not_or] at ht
      rw [hred, show verifyDispatch w p arn = .ok true by simp [verifyDispatch, hsvc, ht]]
    · intro hsvc ht
      simp only [List.mem_cons, List.not_mem_nil, or_false, not_or] at ht
      rw [hred, show verifyDispatch w p arn = .ok true by simp [verifyDispatch, hsvc, ht]]
    · intro hsvc ht
      simp only [List.mem_cons, List.not_mem_nil, or_false, not_or] at ht
      obtain ⟨h1, h2, h3, h4⟩ := ht
      rw [hred, show verifyDispatch w p arn = .ok true by
        simp [verifyDispatch, hsvc, h1, h2, h3, h4]]
    · intro hsvc ht
      simp only [List.mem_cons, List.not_mem_nil, or_false, not_or] at ht
      rw [hred, show verifyDispatch w p arn = .ok true by simp [verifyDispatch, hsvc, ht]]
    · intro hsvc ht
      simp only [List.mem_cons, List.not_mem_nil, or_false, not_or] at ht
      rw [hred, show verifyDispatch w p arn = .ok true by simp [verifyDispatch, hsvc, ht]]
    · intro hsvc ht
      simp only [List.mem_cons, List.not_mem_nil, or_false, not_or] at ht
      obtain ⟨h1, h2⟩ := ht
      rw [hred, show verifyDispatch w p arn = .ok true by
        simp [verifyDispatch, hsvc, h1, h2]]
    · intro hsvc ht
      simp only [List.mem_cons, List.not_mem_nil, or_false, not_or] at ht
      rw [hred, show verifyDispatch w p arn = .ok true by simp [verifyDispatch, hsvc, ht]]
    · intro hsvc ht
      simp only [List.mem_cons, List.not_mem_nil, or_false, not_or] at ht
      rw [hred, show verifyDispatch w p arn = .ok true by simp [verifyDispatch, hsvc, ht]]
    · intro hsvc ht
      simp only [List.mem_cons, List.not_mem_nil, or_false, not_or] at ht
      obtain ⟨h1, h2⟩ := ht
      rw [hred, show verifyDispatch w p arn = .ok true by
        simp [verifyDispatch, hsvc, h1, h2]]
    · intro hsvc ht
      simp only [List.mem_cons, List.not_mem_nil, or_false, not_or] at ht
      rcases hsvc with hsvc | hsvc <;>
        rw [hred, show verifyDispatch w p arn = .ok true by simp [verifyDispatch, hsvc, ht]]
    · intro hsvc
      simp only [List.mem_cons, List.not_mem_nil, or_false, not_or] at hsvc
      obtain ⟨h1, h2, h3, h4, h5, h6, h7, h8, h9, h10, h11, h12, h13, h14, h15, h16,
        h17, h18⟩ := hsvc
      rw [hred, show verifyDispatch w p arn = .ok true by
        simp [verifyDispatch, h1, h2, h3, h4, h5, h6, h7, h8, h9, h10, h11, h12, h13,
          h14, h15, h16, h17, h18]]

theorem claim_C1_witness :
    verify_resource_exists
      { trivAws with head_bucket := fun _ => .err "NoSuchBucket" "gone" } "arn:aws:s3:::b" = false ∧
    verify_resource_exists
      { trivAws with head_bucket := fun _ => .err "AccessDenied" "no" } "arn:aws:s3:::b" = true ∧
    verify_resource_exists
      { trivAws with head_bucket := fun _ => .exn "boom" } "arn:aws:s3:::b" = true ∧
    verify_resource_exists trivAws "arn:aws:fooservice:r:1:thing/x" = true ∧
    verify_resource_exists trivAws "::::" = true := by
  refine ⟨?_, ?_, ?_, ?_, ?_⟩
  · exact (((claim_C1_fail_open
      { trivAws with head_bucket := fun _ => .err "NoSuchBucket" "gone" } "arn:aws:s3:::b").2
      { partition := "aws", service := "s3", region := "", account := "", resource := "b",
        resource_type := none, resource_id := "b" } rfl).1 "NoSuchBucket" "gone" rfl).mpr
      (by decide)
  · have h := (((claim_C1_fail_open
      { trivAws with head_bucket := fun _ => .err "AccessDenied" "no" } "arn:aws:s3:::b").2
      { partition := "aws", service := "s3", region := "", account := "", resource := "b",
        resource_type := none, resource_id := "b" } rfl).1 "AccessDenied" "no" rfl)
    cases hb : verify_resource_exists
        { trivAws with head_bucket := fun _ => .err "AccessDenied" "no" } "arn:aws:s3:::b" with
    | false => exact absurd (h.mp hb) (by decide)
    | true => rfl
  · exact (((claim_C1_fail_open
      { trivAws with head_bucket := fun _ => .exn "boom" } "arn:aws:s3:::b").2
      { partition := "aws", service := "s3", region := "", account := "", resource := "b",
        resource_type := none, resource_id := "b" } rfl).2.1 "boom" rfl)
  · have h := (claim_C1_fail_open trivAws "arn:aws:fooservice:r:1:thing/x").2
      { partition := "aws", service := "fooservice", region := "r", account := "1",
        resource := "thing/x", resource_type := some "thing", resource_id := "x" } rfl
    obtain ⟨-, -, -, -, -, -, -, -, -, -, -, -, -, -, -, -, hunk⟩ := h
    exact hunk (by decide)
  · exact (claim_C1_fail_open trivAws "::::").1 rfl

/-- C5: a read call that succeeds but reports a terminal or pending-deletion
lifecycle state classifies the identity as absent: an instance whose first
reported state is terminated or shutting-down, a NAT gateway whose state is
deleted or deleting, and a KMS key whose state is PendingDeletion or
Disabled. -/
theorem claim_C5_soft_delete (w : AwsWorld) (arn : String) (p : Arn)
    (hp : parse_arn arn = some p) :
    (p.service = "ec2" → p.resource_type = some "instance" →
      ∀ st insts moreRes,
        w.describe_instances p.region p.resource_id = .ok ((st :: insts) :: moreRes) →
        st ∈ (["terminated", "shutting-down"] : List String) →
        verify_resource_exists w arn = false) ∧
    (p.service = "ec2" → p.resource_type = some "natgateway" →
      ∀ st more, w.describe_nat_gateways p.region p.resource_id = .ok (st :: more) →
        st ∈ (["deleted", "deleting"] : List String) →
        verify_resource_exists w arn = false) ∧
    (p.service = "kms" → p.resource_type = some "key" →
      ∀ st, w.describe_key p.region p.resource_id = .ok st →
        st ∈ (["PendingDeletion", "Disabled"] : List String) →
        verify_resource_exists w arn = false) := by
  refine ⟨?_, ?_, ?_⟩
  · intro hsvc ht st insts moreRes hcall hst
    simp only [List.mem_cons, List.not_mem_nil, or_false] at hst
    rcases hst with rfl | rfl <;>
      rw [verify_red w arn p hp, show verifyDispatch w p arn = .ok false by
        simp [verifyDispatch, verifyEc2, hsvc, ht, hcall, ApiResult.bind]]
  · intro hsvc ht st more hcall hst
    simp only [List.mem_cons, List.not_mem_nil, or_false] at hst
    rcases hst with rfl | rfl <;>
      rw [verify_red w arn p hp, show verifyDispatch w p arn = .ok false by
        simp [verifyDispatch, verifyEc2, hsvc, ht, hcall, ApiResult.bind]]
  · intro hsvc ht st hcall hst
    simp only [List.mem_cons, List.not_mem_nil, or_false] at hst
    rcases hst with rfl | rfl <;>
      rw [verify_red w arn p hp, show verifyDispatch w p arn = .ok false by
        simp [verifyDispatch, hsvc, ht, hcall, ApiResult.bind]]

theorem claim_C5_witness :
    verify_resource_exists
      { trivAws with describe_instances := fun _ _ => .ok [["terminated"]] }
      "arn:aws:ec2:us-west-2:1:instance/i-1" = false ∧
    verify_resource_exists
      { trivAws with describe_nat_gateways := fun _ _ => .ok ["deleting"] }
      "arn:aws:ec2:us-west-2:1:natgateway/nat-1" = false ∧
    verify_resource_exists
      { trivAws with describe_key := fun _ _ => .ok "PendingDeletion" }
      "arn:aws:kms:us-west-2:1:key/k-1" = false := by
  refine ⟨?_, ?_, ?_⟩
  · exact (claim_C5_soft_delete
      { trivAws with describe_instances := fun _ _ => .ok [["terminated"]] }
      "arn:aws:ec2:us-west-2:1:instance/i-1"
      { partition := "aws", service := "ec2", region := "us-west-2", account := "1",
        resource := "instance/i-1", resource_type := some "instance", resource_id := "i-1" }
      rfl).1 rfl rfl "terminated" [] [] rfl (by decide)
  · exact (claim_C5_soft_delete
      { trivAws with describe_nat_gateways := fun _ _ => .ok ["deleting"] }
      "arn:aws:ec2:us-west-2:1:natgateway/nat-1"
      { partition := "aws", service := "ec2", region := "us-west-2", account := "1",
        resource := "natgateway/nat-1", resource_type := some "natgateway",
        resource_id := "nat-1" } rfl).2.1 rfl rfl "deleting" [] rfl (by decide)
  · exact (claim_C5_soft_delete
      { trivAws with describe_key := fun _ _ => .ok "PendingDeletion" }
      "arn:aws:kms:us-west-2:1:key/k-1"
      { partition := "aws", service := "kms", region := "us-west-2", account := "1",
        resource := "key/k-1", resource_type := some "key", resource_id := "k-1" }
      rfl).2.2 rfl rfl "PendingDeletion" rfl (by decide)

theorem delete_red (w : DelWorld) (arn : String) (p : Arn) (hp : parse_arn arn = some p) :
    delete_resource w arn =
      ((delete_dispatch w p arn).1,
        match (delete_dispatch w p arn).2 with
        | .ok out => out
        | .err _ msg => (false, "AWS Error: " ++ msg)
        | .exn msg => (false, "Error: " ++ msg)) := by
  simp only [delete_resource, hp]
  cases (delete_dispatch w p arn).2 <;> rfl

/-- C7: the deletion dispatcher refuses, with a descriptive message and
without issuing any provider call, for an internet gateway, for a
security-group rule, for every unknown resource type of each known service
(naming the unsupported type), and for every unknown service. -/
theorem claim_C7_refusals (w : DelWorld) (arn : String) (p : Arn)
    (hp : parse_arn arn = some p) :
    (p.service = "ec2" → p.resource_type = some "internet-gateway" →
      delete_resource w arn = ([], (false, "Internet gateway must be detached from VPC first"))) ∧
    (p.service = "ec2" → p.resource_type = some "security-group-rule" →
      delete_resource w arn = ([], (false, "Security group rules must be deleted via security group"))) ∧
    (p.service = "ec2" →
      p.resource_type ∉ ([some "instance", some "security-group", some "security-group-rule",
        some "vpc", some "subnet", some "internet-gateway", some "route-table",
        some "network-acl", some "key-pair", some "volume", some "snapshot", some "image",
        some "elastic-ip", some "eip-allocation", some "natgateway", some "network-interface",
        some "vpc-endpoint", some "vpc-flow-log"] : List (Option String)) →
      delete_resource w arn = ([], (false, "Unknown EC2 resource type: " ++ pyStr p.resource_type))) ∧
    (p.service = "rds" →
      p.resource_type ∉ ([some "db", some "cluster", some "subgrp",
        some "pg"] : List (Option String)) →
      delete_resource w arn = ([], (false, "Unknown RDS resource type: " ++ pyStr p.resource_type))) ∧
    (p.service = "elasticloadbalancing" →
      p.resource_type ∉ ([some "loadbalancer", some "targetgroup",
        some "listener"] : List (Option String)) →
      delete_resource w arn = ([], (false, "Unknown ELB resource type: " ++ pyStr p.resource_type))) ∧
    (p.service = "lambda" → p.resource_type ∉ ([some "function"] : List (Option String)) →
      delete_resource w arn = ([], (false, "Unknown Lambda resource type: " ++ pyStr p.resource_type))) ∧
    (p.service = "dynamodb" → p.resource_type ∉ ([some "table"] : List (Option String)) →
      delete_resource w arn = ([], (false, "Unknown DynamoDB resource type: " ++ pyStr p.resource_type))) ∧
    (p.service = "secretsmanager" → p.resource_type ∉ ([some "secret"] : List (Option String)) →
      delete_resource w arn = ([], (false, "Unknown Secrets Manager resource type: " ++ pyStr p.resource_type))) ∧
    (p.service = "iam" →
      p.resource_type ∉ ([some "role", some "policy",
        some "instance-profile"] : List (Option String)) →
      delete_resource w arn = ([], (false, "Unknown IAM resource type: " ++ pyStr p.resource_type))) ∧
    (p.service = "logs" → p.resource_type ∉ ([some "log-group"] : List (Option String)) →
      delete_resource w arn = ([], (false, "Unknown CloudWatch Logs resource type: " ++ pyStr p.resource_type))) ∧
    (p.service = "events" → p.resource_type ∉ ([some "rule"] : List (Option String)) →
      delete_resource w arn = ([], (false, "Unknown EventBridge resource type: " ++ pyStr p.resource_type))) ∧
    (p.service = "autoscaling" →
      p.resource_type ∉ ([some "autoScalingGroup",
        some "launchConfiguration"] : List (Option String)) →
      delete_resource w arn = ([], (false, "Unknown Auto Scaling resource type: " ++ pyStr p.resource_type))) ∧
    (p.service = "route53" → p.resource_type ∉ ([some "hostedzone"] : List (Option String)) →
      delete_resource w arn = ([], (false, "Unknown Route53 resource type: " ++ pyStr p.resource_type))) ∧
    (p.service = "kms" → p.resource_type ∉ ([some "key"] : List (Option String)) →
      delete_resource w arn = ([], (false, "Unknown KMS resource type: " ++ pyStr p.resource_type))) ∧
    (p.service = "elasticache" →
      p.resource_type ∉ ([some "cluster", some "subnetgroup"] : List (Option String)) →
      delete_resource w arn = ([], (false, "Unknown ElastiCache resource type: " ++ pyStr p.resource_type))) ∧
    ((p.service = "es" ∨ p.service = "opensearch") →
      p.resource_type ∉ ([some "domain"] : List (Option String)) →
      delete_resource w arn = ([], (false, "Unknown OpenSearch resource type: " ++ pyStr p.resource_type))) ∧
    (p.service ∉ (["ec2", "rds", "elasticloadbalancing", "lambda", "dynamodb", "s3",
        "secretsmanager", "iam", "logs", "events", "sns", "sqs", "autoscaling",
        "route53", "kms", "elasticache", "es", "opensearch"] : List String) →
      delete_resource w arn = ([], (false, "Unknown service: " ++ p.service))) := by
  refine ⟨?_, ?_, ?_, ?_, ?_, ?_, ?_, ?_, ?_, ?_, ?_, ?_, ?_, ?_, ?_, ?_, ?_⟩
  · intro hsvc ht
    rw [delete_red w arn p hp, show delete_dispatch w p arn =
      ([], .ok (false, "Internet gateway must be detached from VPC first")) by
        simp [delete_dispatch, deleteEc2, refuse, hsvc, ht]]
  · intro hsvc ht
    rw [delete_red w arn p hp, show delete_dispatch w p arn =
      ([], .ok (false, "Security group rules must be deleted via security group")) by
        simp [delete_dispatch, deleteEc2, refuse, hsvc, ht]]
  · intro hsvc ht
    simp only [List.mem_cons, List.not_mem_nil, or_false, not_or] at ht
    obtain ⟨h1, h2, h3, h4, h5, h6, h7, h8, h9, h10, h11, h12, h13, h14, h15, h16,
      h17, h18⟩ := ht
    rw [delete_red w arn p hp, show delete_dispatch w p arn =
      ([], .ok (false, "Unknown EC2 resource type: " ++ pyStr p.resource_type)) by
        simp [delete_dispatch, deleteEc2, refuse, hsvc, h1, h2, h3, h4, h5, h6, h7, h8,
          h9, h10, h11, h12, h13, h14, h15, h16, h17, h18]]
  · intro hsvc ht
    simp only [List.mem_cons, List.not_mem_nil, or_false, not_or] at ht
    obtain ⟨h1, h2, h3, h4⟩ := ht
    rw [delete_red w arn p hp, show delete_dispatch w p arn =
      ([], .ok (false, "Unknown RDS resource type: " ++ pyStr p.resource_type)) by
        simp [delete_dispatch, refuse, hsvc, h1, h2, h3, h4]]
  · intro hsvc ht
    simp only [List.mem_cons, List.not_mem_nil, or_false, not_or] at ht
    obtain ⟨h1, h2, h3⟩ := ht
    rw [delete_red w arn p hp, show delete_dispatch w p arn =
      ([], .ok (false, "Unknown ELB resource type: " ++ pyStr p.resource_type)) by
        simp [delete_dispatch, refuse, hsvc, h1, h2, h3]]
  · intro hsvc ht
    simp only [List.mem_cons, List.not_mem_nil, or_false, not_or] at ht
    rw [delete_red w arn p hp, show delete_dispatch w p arn =
      ([], .ok (false, "Unknown Lambda resource type: " ++ pyStr p.resource_type)) by
        simp [delete_dispatch, refuse, hsvc, ht]]
  · intro hsvc ht
    simp only [List.mem_cons, List.not_mem_nil, or_false, not_or] at ht
    rw [delete_red w arn p hp, show delete_dispatch w p arn =
      ([], .ok (false, "Unknown DynamoDB resource type: " ++ pyStr p.resource_type)) by
        simp [delete_dispatch, refuse, hsvc, ht]]
  · intro hsvc ht
    simp only [List.mem_cons, List.not_mem_nil, or_false, not_or] at ht
    rw [delete_red w arn p hp, show delete_dispatch w p arn =
      ([], .ok (false, "Unknown Secrets Manager resource type: " ++ pyStr p.resource_type)) by
        simp [delete_dispatch, refuse, hsvc, ht]]
  · intro hsvc ht
    simp only [List.mem_cons, List.not_mem_nil, or_false, not_or] at ht
    obtain ⟨h1, h2, h3⟩ := ht
    rw [delete_red w arn p hp, show delete_dispatch w p arn =
      ([], .ok (false, "Unknown IAM resource type: " ++ pyStr p.resource_type)) by
        simp [delete_dispatch, refuse, hsvc, h1, h2, h3]]
  · intro hsvc ht
    simp only [List.mem_cons, List.not_mem_nil, or_false, not_or] at ht
    rw [delete_red w arn p hp, show delete_dispatch w p arn =
      ([], .ok (false, "Unknown CloudWatch Logs resource type: " ++ pyStr p.resource_type)) by
        simp [delete_dispatch, refuse, hsvc, ht]]
  · intro hsvc ht
    simp only [List.mem_cons, List.not_mem_nil, or_false, not_or] at ht
    rw [delete_red w arn p hp, show delete_dispatch w p arn =
      ([], .ok (false, "Unknown EventBridge resource type: " ++ pyStr p.resource_type)) by
        simp [delete_dispatch, refuse, hsvc, ht]]
  · intro hsvc ht
    simp only [List.mem_cons, List.not_mem_nil, or_false, not_or] at ht
    obtain ⟨h1, h2⟩ := ht
    rw [delete_red w arn p hp, show delete_dispatch w p arn =
      ([], .ok (false, "Unknown Auto Scaling resource type: " ++ pyStr p.resource_type)) by
        simp [delete_dispatch, refuse, hsvc, h1, h2]]
  · intro hsvc ht
    simp only [List.mem_cons, List.not_mem_nil, or_false, not_or] at ht
    rw [delete_red w arn p hp, show delete_dispatch w p arn =
      ([], .ok (false, "Unknown Route53 resource type: " ++ pyStr p.resource_type)) by
        simp [delete_dispatch, refuse, hsvc, ht]]
  · intro hsvc ht
    simp only [List.mem_cons, List.not_mem_nil, or_false, not_or] at ht
    rw [delete_red w arn p hp, show delete_dispatch w p arn =
      ([], .ok (false, "Unknown KMS resource type: " ++ pyStr p.resource_type)) by
        simp [delete_dispatch, refuse, hsvc, ht]]
  · intro hsvc ht
    simp only [List.mem_cons, List.not_mem_nil, or_false, not_or] at ht
    obtain ⟨h1, h2⟩ := ht
    rw [delete_red w arn p hp, show delete_dispatch w p arn =
      ([], .ok (false, "Unknown ElastiCache resource type: " ++ pyStr p.resource_type)) by
        simp [delete_dispatch, refuse, hsvc, h1, h2]]
  · intro hsvc ht
    simp only [List.mem_cons, List.not_mem_nil, or_false, not_or] at ht
    rcases hsvc with hsvc | hsvc <;>
      rw [delete_red w arn p hp, show delete_dispatch w p arn =
        ([], .ok (false, "Unknown OpenSearch resource type: " ++ pyStr p.resource_type)) by
          simp [delete_dispatch, refuse, hsvc, ht]]
  · intro hsvc
    simp only [List.mem_cons, List.not_mem_nil, or_false, not_or] at hsvc
    obtain ⟨h1, h2, h3, h4, h5, h6, h7, h8, h9, h10, h11, h12, h13, h14, h15, h16,
      h17, h18⟩ := hsvc
    rw [delete_red w arn p hp, show delete_dispatch w p arn =
      ([], .ok (false, "Unknown service: " ++ p.service)) by
        simp [delete_dispatch, refuse, h1, h2, h3, h4, h5, h6, h7, h8, h9, h10, h11,
          h12, h13, h14, h15, h16, h17, h18]]

theorem claim_C7_witness :
    delete_resource trivDel "arn:aws:ec2:us-west-2:1:internet-gateway/igw-1" =
      ([], (false, "Internet gateway must be detached from VPC first")) ∧
    delete_resource trivDel "arn:aws:ec2:us-west-2:1:weird/x" =
      ([], (false, "Unknown EC2 resource type: weird")) ∧
    delete_resource trivDel "arn:aws:fooservice:us-west-2:1:thing/x" =
      ([], (false, "Unknown service: fooservice")) := by
  refine ⟨?_, ?_, ?_⟩
  · exact (claim_C7_refusals trivDel "arn:aws:ec2:us-west-2:1:internet-gateway/igw-1"
      { partition := "aws", service := "ec2", region := "us-west-2", account := "1",
        resource := "internet-gateway/igw-1", resource_type := some "internet-gateway",
        resource_id := "igw-1" } rfl).1 rfl rfl
  · have h := (claim_C7_refusals trivDel "arn:aws:ec2:us-west-2:1:weird/x"
      { partition := "aws", service := "ec2", region := "us-west-2", account := "1",
        resource := "weird/x", resource_type := some "weird",
        resource_id := "x" } rfl).2.2.1 rfl (by decide)
    exact h
  · have h := claim_C7_refusals trivDel "arn:aws:fooservice:us-west-2:1:thing/x"
      { partition := "aws", service := "fooservice", region := "us-west-2", account := "1",
        resource := "thing/x", resource_type := some "thing", resource_id := "x" } rfl
    obtain ⟨-, -, -, -, -, -, -, -, -, -, -, -, -, -, -, -, hunk⟩ := h
    exact hunk (by decide)

theorem runSeq_all_ok (w : DelWorld) (cs : List DelCall)
    (h : ∀ c ∈ cs, w.mutate c = .ok ()) : runSeq w cs = (cs, .ok ()) := by
  induction cs with
  | nil => rfl
  | cons c rest ih =>
    simp only [runSeq, h c (List.mem_cons_self c rest)]
    rw [ih (fun x hx => h x (List.mem_cons_of_mem c hx))]

theorem runSeq_err (w : DelWorld) (pre : List DelCall) (c : DelCall)
    (post : List DelCall) (code msg : String)
    (hpre : ∀ x ∈ pre, w.mutate x = .ok ()) (hc : w.mutate c = .err code msg) :
    runSeq w (pre ++ c :: post) = (pre ++ [c], .err code msg) := by
  induction pre with
  | nil => simp [runSeq, hc]
  | cons x xs ih =>
    simp only [List.cons_append, runSeq, List.append_eq, hpre x (List.mem_cons_self x xs)]
    rw [ih (fun y hy => hpre y (List.mem_cons_of_mem x hy))]

/-- C3 as stated is false on the code: a failing detach aborts the whole
role deletion, the delete-role call is never attempted. At a role with one
attached policy whose detach raises, the trace holds only the detach call
and the run fails with the provider message. -/
theorem claim_C3_counterexample :
    delete_resource c3World "arn:aws:iam::1:role/r" =
      ([Event.api (DelCall.detachRolePolicy "r" "arn:aws:iam::aws:policy/P")],
        (false, "AWS Error: cannot detach")) ∧
    Event.api (DelCall.deleteRole "r") ∉ (delete_resource c3World "arn:aws:iam::1:role/r").1 := by
  constructor
  · rfl
  · decide

/-- C3 amended: deleting a role detaches every attached managed policy,
deletes every inline policy and removes the role from every referencing
instance profile, in that order, before the delete-role call, when every
sub-step call succeeds; and when one sub-step call raises a provider error,
the run stops at that call - the remaining sub-steps and the delete-role
call are not attempted - and the outcome is a failure carrying the provider
message. -/
theorem claim_C3_role_teardown (w : DelWorld) (arn : String) (p : Arn)
    (hp : parse_arn arn = some p) (hs : p.service = "iam")
    (ht : p.resource_type = some "role") :
    roleDeleteCalls w p.resource_id =
      ((w.list_attached_role_policies p.resource_id).flatten.map
        (fun pa => DelCall.detachRolePolicy p.resource_id pa)) ++
      ((w.list_role_policies p.resource_id).flatten.map
        (fun pn => DelCall.deleteRolePolicy p.resource_id pn)) ++
      ((w.list_instance_profiles_for_role p.resource_id).flatten.map
        (fun ip => DelCall.removeRoleFromInstanceProfile ip p.resource_id)) ++
      [DelCall.deleteRole p.resource_id] ∧
    ((∀ c ∈ roleDeleteCalls w p.resource_id, w.mutate c = .ok ()) →
      (delete_resource w arn).1 = (roleDeleteCalls w p.resource_id).map Event.api ∧
      (delete_resource w arn).2.1 = true) ∧
    (∀ pre c post code msg,
      roleDeleteCalls w p.resource_id = pre ++ c :: post →
      (∀ x ∈ pre, w.mutate x = .ok ()) → w.mutate c = .err code msg →
      (delete_resource w arn).1 = (pre ++ [c]).map Event.api ∧
      (delete_resource w arn).2 = (false, "AWS Error: " ++ msg)) := by
  have hd : delete_dispatch w p arn = deleteIamRole w p.resource_id := by
    simp [delete_dispatch, hs, ht]
  refine ⟨rfl, ?_, ?_⟩
  · intro h
    rw [delete_red w arn p hp, hd]
    simp [deleteIamRole, runSeq_all_ok w _ h, ApiResult.map]
  · intro pre c post code msg heq hpre hc
    rw [delete_red w arn p hp, hd]
    simp only [deleteIamRole, heq, runSeq_err w pre c post code msg hpre hc]
    simp [ApiResult.map]

theorem claim_C3_witness :
    ((∀ c ∈ roleDeleteCalls c3OkWorld "r", c3OkWorld.mutate c = .ok ()) ∧
      (delete_resource c3OkWorld "arn:aws:iam::1:role/r").1 =
        [Event.api (DelCall.detachRolePolicy "r" "pa1"),
         Event.api (DelCall.detachRolePolicy "r" "pa2"),
         Event.api (DelCall.deleteRolePolicy "r" "inl1"),
         Event.api (DelCall.removeRoleFromInstanceProfile "prof1" "r"),
         Event.api (DelCall.deleteRole "r")]) ∧
    (delete_resource c3World "arn:aws:iam::1:role/r").2 =
      (false, "AWS Error: cannot detach") := by
  refine ⟨⟨fun c _ => rfl, ?_⟩, ?_⟩
  · have h := (claim_C3_role_teardown c3OkWorld "arn:aws:iam::1:role/r"
      { partition := "aws", service := "iam", region := "", account := "1",
        resource := "role/r", resource_type := some "role", resource_id := "r" }
      rfl rfl rfl).2.1 (fun c _ => rfl)
    rw [h.1]
    rfl
  · exact ((claim_C3_role_teardown c3World "arn:aws:iam::1:role/r"
      { partition := "aws", service := "iam", region := "", account := "1",
        resource := "role/r", resource_type := some "role", resource_id := "r" }
      rfl rfl rfl).2.2 []
      (DelCall.detachRolePolicy "r" "arn:aws:iam::aws:policy/P")
      [DelCall.deleteRole "r"] "DeleteConflict" "cannot detach" rfl
      (fun x hx => absurd hx (List.not_mem_nil x)) rfl).2

/-- C4: deleting a bucket that holds at least one object version or delete
marker issues the confirmation prompt exactly once and before any delete
call (the prompt is the first event and every later event is an API call,
none of them another prompt); and if the user declines, no delete-objects
and no delete-bucket call is made and the outcome is the non-error
cancelled failure. -/
theorem claim_C4_bucket_confirmation (w : DelWorld) (arn : String) (p : Arn)
    (hp : parse_arn arn = some p) (hs : p.service = "s3")
    (hcnt : 0 < ((w.list_object_versions p.resource_id).map
      (fun pg => pg.versions.length + pg.deleteMarkers.length)).sum) :
    (∃ rest, (delete_resource w arn).1 =
        Event.prompt (((w.list_object_versions p.resource_id).map
          (fun pg => pg.versions.length + pg.deleteMarkers.length)).sum) :: rest ∧
      ∀ e ∈ rest, ∃ c, e = Event.api c) ∧
    (¬(pyLower (pyStrip w.s3_answer) = "y" ∨ pyLower (pyStrip w.s3_answer) = "yes") →
      delete_resource w arn =
        ([Event.prompt (((w.list_object_versions p.resource_id).map
          (fun pg => pg.versions.length + pg.deleteMarkers.length)).sum)],
         (false, "Bucket deletion cancelled by user"))) := by
  have hd : delete_dispatch w p arn = deleteS3Bucket w p.resource_id := by
    simp [delete_dispatch, hs]
  by_cases hans : pyLower (pyStrip w.s3_answer) = "y" ∨ pyLower (pyStrip w.s3_answer) = "yes"
  · constructor
    · rw [delete_red w arn p hp, hd]
      simp only [deleteS3Bucket]
      rw [if_pos hcnt, if_pos hans]
      refine ⟨(runSeq w ((bucketBatches (w.list_object_versions p.resource_id)).map
        (DelCall.deleteObjects p.resource_id) ++ [DelCall.deleteBucket p.resource_id])).1.map
          Event.api, rfl, ?_⟩
      intro e he
      simp only [List.mem_map] at he
      obtain ⟨c, -, rfl⟩ := he
      exact ⟨c, rfl⟩
    · intro h
      exact absurd hans h
  · constructor
    · rw [delete_red w arn p hp, hd]
      simp only [deleteS3Bucket]
      rw [if_pos hcnt, if_neg hans]
      exact ⟨[], rfl, by simp⟩
    · intro _
      rw [delete_red w arn p hp, hd]
      simp only [deleteS3Bucket]
      rw [if_pos hcnt, if_neg hans]

theorem claim_C4_witness :
    delete_resource c4World "arn:aws:s3:::b" =
      ([Event.prompt 2], (false, "Bucket deletion cancelled by user")) := by
  have h := (claim_C4_bucket_confirmation c4World "arn:aws:s3:::b"
    { partition := "aws", service := "s3", region := "", account := "", resource := "b",
      resource_type := none, resource_id := "b" } rfl rfl (by decide)).2 (by decide)
  exact h

/-- C8 as stated is false on the code: the teardown skips every NS and SOA
record set regardless of its name, not only the zone apex ones. At a zone
whose listing holds two NS record sets with two different names (at most
one name can be the apex), no record deletion is submitted at all, yet the
zone delete call is made. -/
theorem claim_C8_counterexample :
    delete_resource c8World "arn:aws:route53:::hostedzone/Z1" =
      ([Event.api (DelCall.deleteHostedZone "Z1")],
        (true, "Hosted zone deleted (removed 0 records)")) ∧
    c8World.list_resource_record_sets "Z1" =
      [[{ name := "a.example.com.", rtype := "NS", rdata := "ns1" },
        { name := "b.example.com.", rtype := "NS", rdata := "ns2" }]] ∧
    ("a.example.com." : String) ≠ "b.example.com." := by
  exact ⟨rfl, rfl, by decide⟩

/-- C8 amended: deleting a hosted zone submits a DELETE change for every
record set whose type is not NS and not SOA (NS and SOA record sets are
skipped regardless of their name), all of them before the
delete-hosted-zone call, when every call succeeds. -/
theorem claim_C8_zone_teardown (w : DelWorld) (arn : String) (p : Arn)
    (hp : parse_arn arn = some p) (hs : p.service = "route53")
    (ht : p.resource_type = some "hostedzone") :
    ((∀ c ∈ (zoneBatches (w.list_resource_record_sets p.resource_id)).map
        (DelCall.changeResourceRecordSets p.resource_id) ++
        [DelCall.deleteHostedZone p.resource_id], w.mutate c = .ok ()) →
      (delete_resource w arn).1 =
        ((zoneBatches (w.list_resource_record_sets p.resource_id)).map
          (DelCall.changeResourceRecordSets p.resource_id)).map Event.api ++
        [Event.api (DelCall.deleteHostedZone p.resource_id)]) ∧
    (∀ page ∈ w.list_resource_record_sets p.resource_id, ∀ r ∈ page,
      ¬(r.rtype = "NS" ∨ r.rtype = "SOA") →
      ∃ batch ∈ zoneBatches (w.list_resource_record_sets p.resource_id), r ∈ batch) ∧
    (∀ batch ∈ zoneBatches (w.list_resource_record_sets p.resource_id), ∀ r ∈ batch,
      ¬(r.rtype = "NS" ∨ r.rtype = "SOA")) := by
  have hd : delete_dispatch w p arn = deleteRoute53Zone w p.resource_id := by
    simp [delete_dispatch, hs, ht]
  refine ⟨?_, ?_, ?_⟩
  · intro h
    rw [delete_red w arn p hp, hd]
    simp [deleteRoute53Zone, runSeq_all_ok w _ h, ApiResult.map]
  · intro page hpage r hr hns
    refine ⟨page.filter (fun x => !(x.rtype = "NS" ∨ x.rtype = "SOA")), ?_, ?_⟩
    · unfold zoneBatches
      refine List.mem_filter.mpr ⟨List.mem_map_of_mem _ hpage, ?_⟩
      have hrmem : r ∈ page.filter (fun x => !(x.rtype = "NS" ∨ x.rtype = "SOA")) :=
        List.mem_filter.mpr ⟨hr, by simp [hns]⟩
      simpa using List.ne_nil_of_mem hrmem
    · exact List.mem_filter.mpr ⟨hr, by simp [hns]⟩
  · intro batch hb r hr
    unfold zoneBatches at hb
    obtain ⟨hb1, -⟩ := List.mem_filter.mp hb
    obtain ⟨page, -, rfl⟩ := List.mem_map.mp hb1
    have := (List.mem_filter.mp hr).2
    simpa using this

theorem claim_C8_witness :
    (delete_resource c8OkWorld "arn:aws:route53:::hostedzone/Z1").1 =
      [Event.api (DelCall.changeResourceRecordSets "Z1"
        [{ name := "www.example.com.", rtype := "A", rdata := "1.2.3.4" }]),
       Event.api (DelCall.deleteHostedZone "Z1")] := by
  have h := (claim_C8_zone_teardown c8OkWorld "arn:aws:route53:::hostedzone/Z1"
    { partition := "aws", service := "route53", region := "", account := "",
      resource := "hostedzone/Z1", resource_type := some "hostedzone",
      resource_id := "Z1" } rfl rfl rfl).1 (fun c _ => rfl)
  rw [h]
  rfl

theorem tagSearch_foldl (aws : AwsWorld) (vrfy : Bool) (items : List TaggedItem) :
    ∀ acc : List Resource × List String,
      (∀ a ∈ acc.1.map (fun r => r.arn), a ∈ acc.2) →
      ∃ rest, (items.foldl (tagSearchStep aws vrfy) acc).1 = acc.1 ++ rest ∧
        (∀ r ∈ rest, r.arn ∉ acc.2 ∧
          r.existsFlag = (if vrfy then verify_resource_exists aws r.arn else true)) ∧
        ((acc.1.map (fun r => r.arn)).Nodup →
          ((items.foldl (tagSearchStep aws vrfy) acc).1.map (fun r => r.arn)).Nodup) := by
  induction items with
  | nil =>
    intro acc hsub
    exact ⟨[], by simp, by simp, fun h => by simpa⟩
  | cons item rest ih =>
    intro acc hsub
    simp only [List.foldl_cons]
    by_cases hmem : item.resourceARN ∈ acc.2
    · have hstep : tagSearchStep aws vrfy acc item = acc := by
        simp [tagSearchStep, hmem]
      rw [hstep]
      exact ih acc hsub
    · have hstep : tagSearchStep aws vrfy acc item =
        (acc.1 ++ [⟨item.resourceARN, item.tags,
          if vrfy then verify_resource_exists aws item.resourceARN else true⟩],
          acc.2 ++ [item.resourceARN]) := by
        simp [tagSearchStep, hmem]
      rw [hstep]
      have hsub2 : ∀ a ∈ ((acc.1 ++ [(⟨item.resourceARN, item.tags,
          if vrfy then verify_resource_exists aws item.resourceARN else true⟩ : Resource)]).map
            (fun r => r.arn)), a ∈ acc.2 ++ [item.resourceARN] := by
        intro a ha
        rw [List.map_append] at ha
        rcases List.mem_append.mp ha with ha | ha
        · exact List.mem_append_left _ (hsub a ha)
        · simp only [List.map_cons, List.map_nil, List.mem_singleton] at ha
          subst ha
          simp
      obtain ⟨rest2, h1, h2, h3⟩ := ih (acc.1 ++ [⟨item.resourceARN, item.tags,
        if vrfy then verify_resource_exists aws item.resourceARN else true⟩],
        acc.2 ++ [item.resourceARN]) hsub2
      refine ⟨⟨item.resourceARN, item.tags,
        if vrfy then verify_resource_exists aws item.resourceARN else true⟩ :: rest2,
        ?_, ?_, ?_⟩
      · rw [h1]
        simp
      · intro r hr
        rcases List.mem_cons.mp hr with rfl | hr2
        · exact ⟨hmem, rfl⟩
        · obtain ⟨hnot, hflag⟩ := h2 r hr2
          exact ⟨fun hin => hnot (List.mem_append_left _ hin), hflag⟩
      · intro hnd
        apply h3
        rw [List.map_append, List.nodup_append]
        refine ⟨hnd, by simp, ?_⟩
        intro a ha hb
        simp only [List.map_cons, List.map_nil, List.mem_singleton] at hb
        subst hb
        exact hmem (hsub _ ha)

/-- C6: when the direct role enumeration yields pairwise distinct raw
identifiers, every raw identifier appears at most once in the returned
list; the directly enumerated roles form the head of the returned list and
an identifier already seen there is skipped when the indexed tag search
returns it again. -/
theorem claim_C6_dedup (w : DirWorld) (tag_key tag_value : String) (vrfy : Bool)
    (h : ((find_iam_roles_by_tag w tag_key tag_value).map (fun r => r.arn)).Nodup) :
    ((find_resources_by_tag w tag_key tag_value vrfy).map (fun r => r.arn)).Nodup ∧
    ∃ rest, find_resources_by_tag w tag_key tag_value vrfy =
      find_iam_roles_by_tag w tag_key tag_value ++ rest ∧
      ∀ r ∈ rest, r.arn ∉ (find_iam_roles_by_tag w tag_key tag_value).map (fun x => x.arn) := by
  obtain ⟨rest, h1, h2, h3⟩ := tagSearch_foldl w.aws vrfy w.get_resources.flatten
    (find_iam_roles_by_tag w tag_key tag_value,
      (find_iam_roles_by_tag w tag_key tag_value).map (fun r => r.arn))
    (fun a ha => ha)
  refine ⟨h3 h, rest, h1, fun r hr => (h2 r hr).1⟩

theorem claim_C6_witness :
    (((find_iam_roles_by_tag c6World "k" "v").map (fun r => r.arn)).Nodup) ∧
    ((find_resources_by_tag c6World "k" "v" true).map (fun r => r.arn)).Nodup := by
  have h := claim_C6_dedup c6World "k" "v" true (by decide)
  exact ⟨by decide, h.1⟩

/-- C10: every role found by the direct enumeration carries existence true;
the returned list is those roles followed by the indexed tag search
results, and only the latter get their existence flag from the verifier
(when verification is on); the direct role part does not depend on the
verification world at all. -/
theorem claim_C10_direct_roles (w : DirWorld) (tag_key tag_value : String) :
    (∀ r ∈ find_iam_roles_by_tag w tag_key tag_value, r.existsFlag = true) ∧
    (∀ vrfy, ∃ rest, find_resources_by_tag w tag_key tag_value vrfy =
      find_iam_roles_by_tag w tag_key tag_value ++ rest ∧
      ∀ r ∈ rest, r.existsFlag = (if vrfy then verify_resource_exists w.aws r.arn else true)) ∧
    (∀ a1 a2, find_iam_roles_by_tag { w with aws := a1 } tag_key tag_value =
      find_iam_roles_by_tag { w with aws := a2 } tag_key tag_value) := by
  refine ⟨?_, ?_, fun a1 a2 => rfl⟩
  · intro r hr
    simp only [find_iam_roles_by_tag, List.mem_filterMap] at hr
    obtain ⟨role, -, hf⟩ := hr
    cases hcall : w.list_role_tags role.roleName with
    | none => simp only [hcall] at hf; exact absurd hf (by simp)
    | some tags =>
      simp only [hcall] at hf
      by_cases hcond : tagGet tags tag_key = some tag_value
      · rw [if_pos hcond] at hf
        have := Option.some.inj hf
        rw [← this]
      · rw [if_neg hcond] at hf
        exact absurd hf (by simp)
  · intro vrfy
    obtain ⟨rest, h1, h2, -⟩ := tagSearch_foldl w.aws vrfy w.get_resources.flatten
      (find_iam_roles_by_tag w tag_key tag_value,
        (find_iam_roles_by_tag w tag_key tag_value).map (fun r => r.arn))
      (fun a ha => ha)
    exact ⟨rest, h1, fun r hr => (h2 r hr).2⟩

theorem claim_C10_witness :
    (({ arn := "arn:aws:iam::1:role/r1", tags := [("k", "v")],
        existsFlag := true } : Resource).existsFlag = true) ∧
    (∃ rest, find_resources_by_tag c6World "k" "v" true =
      find_iam_roles_by_tag c6World "k" "v" ++ rest) := by
  constructor
  · exact (claim_C10_direct_roles c6World "k" "v").1 _ (by decide)
  · obtain ⟨rest, h1, -⟩ := (claim_C10_direct_roles c6World "k" "v").2.1 true
    exact ⟨rest, h1⟩

theorem event_api_injective : Function.Injective Event.api := by
  intro a b h
  injection h

theorem runSeq_trace_sublist (w : DelWorld) (cs : List DelCall) :
    (runSeq w cs).1.Sublist cs := by
  induction cs with
  | nil => simp [runSeq]
  | cons c rest ih =>
    simp only [runSeq]
    cases w.mutate c with
    | ok _ => exact List.Sublist.cons₂ c ih
    | err code msg => exact List.Sublist.cons₂ c (List.nil_sublist rest)
    | exn m => exact List.Sublist.cons₂ c (List.nil_sublist rest)

theorem runTargets_trace_sublist (w : DelWorld) (rule : String) (pages : List (List String)) :
    (runTargets w rule pages).1.Sublist
      ((pages.filter (· ≠ [])).map (DelCall.removeTargets rule)) := by
  induction pages with
  | nil => simp [runTargets]
  | cons ids rest ih =>
    simp only [runTargets]
    by_cases hids : ids = []
    · rw [if_pos hids]
      simp only [List.filter_cons, hids]
      simpa using ih
    · rw [if_neg hids]
      have hfc : (ids :: rest).filter (· ≠ []) = ids :: rest.filter (· ≠ []) := by
        simp [List.filter_cons, hids]
      rw [hfc, List.map_cons]
      cases w.mutate (DelCall.removeTargets rule ids) with
      | ok _ => exact List.Sublist.cons₂ _ ih
      | err code msg => exact List.Sublist.cons₂ _ (List.nil_sublist _)
      | exn m => exact List.Sublist.cons₂ _ (List.nil_sublist _)

theorem runRemoveRoles_trace_sublist (w : DelWorld) (ip : String) (roles : List String) :
    (runRemoveRoles w ip roles).1.Sublist
      (roles.map (DelCall.removeRoleFromInstanceProfile ip)) := by
  induction roles with
  | nil => simp [runRemoveRoles]
  | cons r rest ih =>
    simp only [runRemoveRoles, List.map_cons]
    cases w.mutate (DelCall.removeRoleFromInstanceProfile ip r) with
    | ok _ => exact List.Sublist.cons₂ _ ih
    | err code msg => exact List.Sublist.cons₂ _ (List.nil_sublist _)
    | exn m => exact List.Sublist.cons₂ _ (List.nil_sublist _)

theorem roleDeleteCalls_nodup (w : DelWorld) (rid : String)
    (h1 : ((w.list_attached_role_policies rid).flatten).Nodup)
    (h2 : ((w.list_role_policies rid).flatten).Nodup)
    (h3 : ((w.list_instance_profiles_for_role rid).flatten).Nodup) :
    (roleDeleteCalls w rid).Nodup := by
  unfold roleDeleteCalls
  simp only [List.nodup_append]
  refine ⟨⟨⟨?_, ?_, ?_⟩, ?_, ?_⟩, by simp, ?_⟩
  · exact h1.map (fun a b hab => by simpa using hab)
  · exact h2.map (fun a b hab => by simpa using hab)
  · intro a ha hb
    simp only [List.mem_map] at ha hb
    obtain ⟨x, -, rfl⟩ := ha
    obtain ⟨y, -, hy⟩ := hb
    exact absurd hy (by simp)
  · exact h3.map (fun a b hab => by simpa using hab)
  · intro a ha hb
    simp only [List.mem_append, List.mem_map] at ha hb
    obtain ⟨y, -, hy⟩ := hb
    rcases ha with ⟨x, -, rfl⟩ | ⟨x, -, rfl⟩ <;> exact absurd hy (by simp)
  · intro a ha hb
    simp only [List.mem_singleton] at hb
    subst hb
    simp only [List.mem_append, List.mem_map] at ha
    rcases ha with (⟨x, -, hx⟩ | ⟨x, -, hx⟩) | ⟨x, -, hx⟩ <;> exact absurd hx (by simp)

theorem deleteIamRole_trace_nodup (w : DelWorld) (rid : String)
    (h1 : ((w.list_attached_role_policies rid).flatten).Nodup)
    (h2 : ((w.list_role_policies rid).flatten).Nodup)
    (h3 : ((w.list_instance_profiles_for_role rid).flatten).Nodup) :
    (deleteIamRole w rid).1.Nodup := by
  unfold deleteIamRole
  exact (((roleDeleteCalls_nodup w rid h1 h2 h3).sublist
    (runSeq_trace_sublist w _)).map event_api_injective)

theorem deleteIamInstanceProfile_trace_nodup (w : DelWorld) (ip : String)
    (h4 : ∀ n roles, w.get_instance_profile n = .ok roles → roles.Nodup) :
    (deleteIamInstanceProfile w ip).1.Nodup := by
  unfold deleteIamInstanceProfile
  cases hg : w.get_instance_profile ip with
  | ok roles =>
    dsimp only
    have hroles := h4 ip roles hg
    have hsub := runRemoveRoles_trace_sublist w ip roles
    have hpre : (runRemoveRoles w ip roles).1.Nodup :=
      (hroles.map (fun a b hab => by simpa using hab)).sublist hsub
    cases hc : (runRemoveRoles w ip roles).2.2 with
    | some m => exact hpre.map event_api_injective
    | none =>
      show (List.map Event.api ((runRemoveRoles w ip roles).1 ++
        [DelCall.deleteInstanceProfile ip])).Nodup
      apply List.Nodup.map event_api_injective
      rw [List.nodup_append]
      refine ⟨hpre, by simp, ?_⟩
      intro a ha hb
      simp only [List.mem_singleton] at hb
      subst hb
      have := hsub.mem ha
      simp only [List.mem_map] at this
      obtain ⟨x, -, hx⟩ := this
      exact absurd hx (by simp)
  | err code msg => dsimp only; simp
  | exn m => dsimp only; simp

theorem deleteEventsRule_trace_nodup (w : DelWorld) (rid : String)
    (h5 : ((w.list_targets_by_rule rid).filter (· ≠ [])).Nodup) :
    (deleteEventsRule w rid).1.Nodup := by
  unfold deleteEventsRule
  have hsub := runTargets_trace_sublist w rid (w.list_targets_by_rule rid)
  have hpre : (runTargets w rid (w.list_targets_by_rule rid)).1.Nodup :=
    ((h5.map (fun a b hab => by simpa using hab)).sublist hsub)
  dsimp only
  cases hc : (runTargets w rid (w.list_targets_by_rule rid)).2.2 with
  | some m => exact hpre.map event_api_injective
  | none =>
    show (List.map Event.api ((runTargets w rid (w.list_targets_by_rule rid)).1 ++
      [DelCall.deleteRule rid])).Nodup
    apply List.Nodup.map event_api_injective
    rw [List.nodup_append]
    refine ⟨hpre, by simp, ?_⟩
    intro a ha hb
    simp only [List.mem_singleton] at hb
    subst hb
    have := hsub.mem ha
    simp only [List.mem_map] at this
    obtain ⟨x, -, hx⟩ := this
    exact absurd hx (by simp)

theorem deleteS3Bucket_trace_nodup (w : DelWorld) (b : String)
    (h6 : (bucketBatches (w.list_object_versions b)).Nodup) :
    (deleteS3Bucket w b).1.Nodup := by
  have hcalls : ((bucketBatches (w.list_object_versions b)).map
      (DelCall.deleteObjects b) ++ [DelCall.deleteBucket b]).Nodup := by
    rw [List.nodup_append]
    refine ⟨h6.map (fun a b2 hab => by simpa using hab), by simp, ?_⟩
    intro a ha hb
    simp only [List.mem_singleton] at hb
    subst hb
    simp only [List.mem_map] at ha
    obtain ⟨x, -, hx⟩ := ha
    exact absurd hx (by simp)
  simp only [deleteS3Bucket]
  by_cases hcnt : 0 < ((w.list_object_versions b).map
      (fun pg => pg.versions.length + pg.deleteMarkers.length)).sum
  · rw [if_pos hcnt]
    by_cases hans : pyLower (pyStrip w.s3_answer) = "y" ∨ pyLower (pyStrip w.s3_answer) = "yes"
    · rw [if_pos hans]
      refine List.Nodup.cons ?_ ((hcalls.sublist (runSeq_trace_sublist w _)).map
        event_api_injective)
      intro hmem
      simp only [List.mem_map] at hmem
      obtain ⟨x, -, hx⟩ := hmem
      exact absurd hx (by simp)
    · rw [if_neg hans]
      simp
  · rw [if_neg hcnt]
    exact (((List.nodup_singleton (DelCall.deleteBucket b)).sublist
      (runSeq_trace_sublist w _)).map event_api_injective)

theorem deleteRoute53Zone_trace_nodup (w : DelWorld) (z : String)
    (h7 : (zoneBatches (w.list_resource_record_sets z)).Nodup) :
    (deleteRoute53Zone w z).1.Nodup := by
  unfold deleteRoute53Zone
  have hcalls : ((zoneBatches (w.list_resource_record_sets z)).map
      (DelCall.changeResourceRecordSets z) ++ [DelCall.deleteHostedZone z]).Nodup := by
    rw [List.nodup_append]
    refine ⟨h7.map (fun a b hab => by simpa using hab), by simp, ?_⟩
    intro a ha hb
    simp only [List.mem_singleton] at hb
    subst hb
    simp only [List.mem_map] at ha
    obtain ⟨x, -, hx⟩ := ha
    exact absurd hx (by simp)
  exact ((hcalls.sublist (runSeq_trace_sublist w _)).map event_api_injective)

theorem oneCall_trace_nodup {w : DelWorld} {c : DelCall} {m : String} :
    (oneCall w c m).1.Nodup := by
  unfold oneCall
  simp

theorem refuse_trace_nodup {m : String} : (refuse m).1.Nodup := by
  unfold refuse
  simp

set_option maxHeartbeats 1000000 in
theorem deleteEc2_trace_nodup (w : DelWorld) (p : Arn) : (deleteEc2 w p).1.Nodup := by
  delta deleteEc2
  by_cases h0 : p.resource_type = some "instance"
  · rw [if_pos h0]
    exact oneCall_trace_nodup
  rw [if_neg h0]
  by_cases h1 : p.resource_type = some "security-group"
  · rw [if_pos h1]
    exact oneCall_trace_nodup
  rw [if_neg h1]
  by_cases h2 : p.resource_type = some "security-group-rule"
  · rw [if_pos h2]
    exact refuse_trace_nodup
  rw [if_neg h2]
  by_cases h3 : p.resource_type = some "vpc"
  · rw [if_pos h3]
    exact oneCall_trace_nodup
  rw [if_neg h3]
  by_cases h4 : p.resource_type = some "subnet"
  · rw [if_pos h4]
    exact oneCall_trace_nodup
  rw [if_neg h4]
  by_cases h5 : p.resource_type = some "internet-gateway"
  · rw [if_pos h5]
    exact refuse_trace_nodup
  rw [if_neg h5]
  by_cases h6 : p.resource_type = some "route-table"
  · rw [if_pos h6]
    exact oneCall_trace_nodup
  rw [if_neg h6]
  by_cases h7 : p.resource_type = some "network-acl"
  · rw [if_pos h7]
    exact oneCall_trace_nodup
  rw [if_neg h7]
  by_cases h8 : p.resource_type = some "key-pair"
  · rw [if_pos h8]
    exact oneCall_trace_nodup
  rw [if_neg h8]
  by_cases h9 : p.resource_type = some "volume"
  · rw [if_pos h9]
    exact oneCall_trace_nodup
  rw [if_neg h9]
  by_cases h10 : p.resource_type = some "snapshot"
  · rw [if_pos h10]
    exact oneCall_trace_nodup
  rw [if_neg h10]
  by_cases h11 : p.resource_type = some "image"
  · rw [if_pos h11]
    exact oneCall_trace_nodup
  rw [if_neg h11]
  by_cases h12 : p.resource_type = some "elastic-ip" ∨ p.resource_type = some "eip-allocation"
  · rw [if_pos h12]
    exact oneCall_trace_nodup
  rw [if_neg h12]
  by_cases h13 : p.resource_type = some "natgateway"
  · rw [if_pos h13]
    exact oneCall_trace_nodup
  rw [if_neg h13]
  by_cases h14 : p.resource_type = some "network-interface"
  · rw [if_pos h14]
    exact oneCall_trace_nodup
  rw [if_neg h14]
  by_cases h15 : p.resource_type = some "vpc-endpoint"
  · rw [if_pos h15]
    exact oneCall_trace_nodup
  rw [if_neg h15]
  by_cases h16 : p.resource_type = some "vpc-flow-log"
  · rw [if_pos h16]
    exact oneCall_trace_nodup
  rw [if_neg h16]
  exact refuse_trace_nodup

set_option maxHeartbeats 1000000 in
theorem delete_dispatch_trace_nodup (w : DelWorld) (p : Arn) (arn : String)
    (h : nodupListings w) : (delete_dispatch w p arn).1.Nodup := by
  obtain ⟨h1, h2, h3, h4, h5, h6, h7⟩ := h
  delta delete_dispatch
  by_cases s0 : p.service = "ec2"
  · rw [if_pos s0]
    exact deleteEc2_trace_nodup w p
  rw [if_neg s0]
  by_cases s1 : p.service = "rds"
  · rw [if_pos s1]
    by_cases t1x0 : p.resource_type = some "db"
    · rw [if_pos t1x0]
      exact oneCall_trace_nodup
    rw [if_neg t1x0]
    by_cases t1x1 : p.resource_type = some "cluster"
    · rw [if_pos t1x1]
      exact oneCall_trace_nodup
    rw [if_neg t1x1]
    by_cases t1x2 : p.resource_type = some "subgrp"
    · rw [if_pos t1x2]
      exact oneCall_trace_nodup
    rw [if_neg t1x2]
    by_cases t1x3 : p.resource_type = some "pg"
    · rw [if_pos t1x3]
      exact oneCall_trace_nodup
    rw [if_neg t1x3]
    exact refuse_trace_nodup
  rw [if_neg s1]
  by_cases s2 : p.service = "elasticloadbalancing"
  · rw [if_pos s2]
    by_cases t2x0 : p.resource_type = some "loadbalancer"
    · rw [if_pos t2x0]
      exact oneCall_trace_nodup
    rw [if_neg t2x0]
    by_cases t2x1 : p.resource_type = some "targetgroup"
    · rw [if_pos t2x1]
      exact oneCall_trace_nodup
    rw [if_neg t2x1]
    by_cases t2x2 : p.resource_type = some "listener"
    · rw [if_pos t2x2]
      exact oneCall_trace_nodup
    rw [if_neg t2x2]
    exact refuse_trace_nodup
  rw [if_neg s2]
  by_cases s3 : p.service = "lambda"
  · rw [if_pos s3]
    by_cases t3x0 : p.resource_type = some "function"
    · rw [if_pos t3x0]
      exact oneCall_trace_nodup
    rw [if_neg t3x0]
    exact refuse_trace_nodup
  rw [if_neg s3]
  by_cases s4 : p.service = "dynamodb"
  · rw [if_pos s4]
    by_cases t4x0 : p.resource_type = some "table"
    · rw [if_pos t4x0]
      exact oneCall_trace_nodup
    rw [if_neg t4x0]
    exact refuse_trace_nodup
  rw [if_neg s4]
  by_cases s5 : p.service = "s3"
  · rw [if_pos s5]
    exact deleteS3Bucket_trace_nodup w p.resource_id (h6 p.resource_id)
  rw [if_neg s5]
  by_cases s6 : p.service = "secretsmanager"
  · rw [if_pos s6]
    by_cases t6x0 : p.resource_type = some "secret"
    · rw [if_pos t6x0]
      exact oneCall_trace_nodup
    rw [if_neg t6x0]
    exact refuse_trace_nodup
  rw [if_neg s6]
  by_cases s7 : p.service = "iam"
  · rw [if_pos s7]
    by_cases t7x0 : p.resource_type = some "role"
    · rw [if_pos t7x0]
      exact deleteIamRole_trace_nodup w p.resource_id (h1 p.resource_id) (h2 p.resource_id) (h3 p.resource_id)
    rw [if_neg t7x0]
    by_cases t7x1 : p.resource_type = some "policy"
    · rw [if_pos t7x1]
      exact oneCall_trace_nodup
    rw [if_neg t7x1]
    by_cases t7x2 : p.resource_type = some "instance-profile"
    · rw [if_pos t7x2]
      exact deleteIamInstanceProfile_trace_nodup w p.resource_id h4
    rw [if_neg t7x2]
    exact refuse_trace_nodup
  rw [if_neg s7]
  by_cases s8 : p.service = "logs"
  · rw [if_pos s8]
    by_cases t8x0 : p.resource_type = some "log-group"
    · rw [if_pos t8x0]
      exact oneCall_trace_nodup
    rw [if_neg t8x0]
    exact refuse_trace_nodup
  rw [if_neg s8]
  by_cases s9 : p.service = "events"
  · rw [if_pos s9]
    by_cases t9x0 : p.resource_type = some "rule"
    · rw [if_pos t9x0]
      exact deleteEventsRule_trace_nodup w p.resource_id (h5 p.resource_id)
    rw [if_neg t9x0]
    exact refuse_trace_nodup
  rw [if_neg s9]
  by_cases s10 : p.service = "sns"
  · rw [if_pos s10]
    exact oneCall_trace_nodup
  rw [if_neg s10]
  by_cases s11 : p.service = "sqs"
  · rw [if_pos s11]
    exact oneCall_trace_nodup
  rw [if_neg s11]
  by_cases s12 : p.service = "autoscaling"
  · rw [if_pos s12]
    by_cases t12x0 : p.resource_type = some "autoScalingGroup"
    · rw [if_pos t12x0]
      exact oneCall_trace_nodup
    rw [if_neg t12x0]
    by_cases t12x1 : p.resource_type = some "launchConfiguration"
    · rw [if_pos t12x1]
      exact oneCall_trace_nodup
    rw [if_neg t12x1]
    exact refuse_trace_nodup
  rw [if_neg s12]
  by_cases s13 : p.service = "route53"
  · rw [if_pos s13]
    by_cases t13x0 : p.resource_type = some "hostedzone"
    · rw [if_pos t13x0]
      exact deleteRoute53Zone_trace_nodup w p.resource_id (h7 p.resource_id)
    rw [if_neg t13x0]
    exact refuse_trace_nodup
  rw [if_neg s13]
  by_cases s14 : p.service = "kms"
  · rw [if_pos s14]
    by_cases t14x0 : p.resource_type = some "key"
    · rw [if_pos t14x0]
      exact oneCall_trace_nodup
    rw [if_neg t14x0]
    exact refuse_trace_nodup
  rw [if_neg s14]
  by_cases s15 : p.service = "elasticache"
  · rw [if_pos s15]
    by_cases t15x0 : p.resource_type = some "cluster"
    · rw [if_pos t15x0]
      exact oneCall_trace_nodup
    rw [if_neg t15x0]
    by_cases t15x1 : p.resource_type = some "subnetgroup"
    · rw [if_pos t15x1]
      exact oneCall_trace_nodup
    rw [if_neg t15x1]
    exact refuse_trace_nodup
  rw [if_neg s15]
  by_cases s16 : p.service = "es" ∨ p.service = "opensearch"
  · rw [if_pos s16]
    by_cases t16x0 : p.resource_type = some "domain"
    · rw [if_pos t16x0]
      exact oneCall_trace_nodup
    rw [if_neg t16x0]
    exact refuse_trace_nodup
  rw [if_neg s16]
  exact refuse_trace_nodup

/-- C9: deletion always returns a (succeeded, detail) pair and never lets a
failure escape: parse failure yields the cannot-parse refusal with no call
made, a ClientError from the dispatch yields a failed outcome carrying the
provider message, an unexpected exception yields a failed outcome carrying
its message, a normal branch outcome passes through unchanged; and, when
the provider listings enumerate distinct objects, no call appears twice in
the trace (each deletion call is attempted at most once, no retry). -/
theorem claim_C9_outcome_totality (w : DelWorld) (arn : String) :
    (parse_arn arn = none → delete_resource w arn = ([], (false, "Cannot parse ARN"))) ∧
    (∀ p, parse_arn arn = some p →
      (∀ code msg, (delete_dispatch w p arn).2 = .err code msg →
        (delete_resource w arn).2 = (false, "AWS Error: " ++ msg)) ∧
      (∀ msg, (delete_dispatch w p arn).2 = .exn msg →
        (delete_resource w arn).2 = (false, "Error: " ++ msg)) ∧
      (∀ out, (delete_dispatch w p arn).2 = .ok out → (delete_resource w arn).2 = out)) ∧
    (nodupListings w → (delete_resource w arn).1.Nodup) := by
  refine ⟨?_, ?_, ?_⟩
  · intro h
    simp [delete_resource, h]
  · intro p hp
    refine ⟨?_, ?_, ?_⟩
    · intro code msg hd
      rw [delete_red w arn p hp, hd]
    · intro msg hd
      rw [delete_red w arn p hp, hd]
    · intro out hd
      rw [delete_red w arn p hp, hd]
  · intro h
    cases hp : parse_arn arn with
    | none => simp [delete_resource, hp]
    | some p =>
      rw [delete_red w arn p hp]
      exact delete_dispatch_trace_nodup w p arn h

theorem claim_C9_witness :
    delete_resource trivDel "not-an-arn" = ([], (false, "Cannot parse ARN")) ∧
    (delete_resource { trivDel with mutate := fun _ => .err "InternalError" "boom" }
      "arn:aws:sns:us-west-2:1:topic1").2 = (false, "AWS Error: boom") ∧
    (delete_resource { trivDel with mutate := fun _ => .exn "bang" }
      "arn:aws:sns:us-west-2:1:topic1").2 = (false, "Error: bang") ∧
    (delete_resource c3OkWorld "arn:aws:iam::1:role/r").1.Nodup := by
  have hnl : nodupListings c3OkWorld := by
    refine ⟨fun r => ?_, fun r => ?_, fun r => ?_, fun n roles h => ?_, fun r => ?_,
      fun b => ?_, fun z => ?_⟩
    · exact (by decide : (([["pa1"], ["pa2"]] : List (List String)).flatten).Nodup)
    · exact (by decide : (([["inl1"]] : List (List String)).flatten).Nodup)
    · exact (by decide : (([["prof1"]] : List (List String)).flatten).Nodup)
    · injection h with h2
      subst h2
      simp
    · exact (by decide : (([] : List (List String))).Nodup)
    · exact (by decide : (([] : List (List (String × String)))).Nodup)
    · exact (by decide : (([] : List (List RRecord))).Nodup)
  refine ⟨?_, ?_, ?_, ?_⟩
  · exact (claim_C9_outcome_totality trivDel "not-an-arn").1 rfl
  · exact ((claim_C9_outcome_totality
      { trivDel with mutate := fun _ => .err "InternalError" "boom" }
      "arn:aws:sns:us-west-2:1:topic1").2.1
      { partition := "aws", service := "sns", region := "us-west-2", account := "1",
        resource := "topic1", resource_type := none, resource_id := "topic1" } rfl).1
      "InternalError" "boom" rfl
  · exact ((claim_C9_outcome_totality
      { trivDel with mutate := fun _ => .exn "bang" }
      "arn:aws:sns:us-west-2:1:topic1").2.1
      { partition := "aws", service := "sns", region := "us-west-2", account := "1",
        resource := "topic1", resource_type := none, resource_id := "topic1" } rfl).2.1
      "bang" rfl
  · exact (claim_C9_outcome_totality c3OkWorld "arn:aws:iam::1:role/r").2.2 hnl
